import Mathlib

/-!
Verification development for the single-file landing-page generator
service in `src/app.py` (Flask + google-play-scraper + ColorThief + Jinja2).

The Python source is shallowly embedded below.  External effects are made
explicit:

* the filesystem is a map from path to optional byte content (`FS`);
* HTTP fetches, Play-store searches, and ColorThief palette extraction are
  oracles passed as function arguments (a `none` result models the Python
  call raising an exception, which the source catches);
* the global `random` generator is an explicit stream of draws (`RStream`);
  `random.choice` / `random.randint` / `random.uniform` / `random.sample`
  are modelled by total functions of one or two draws each;
* machine floats are modelled by exact rationals; `round(x, 1)` and the
  `:.0f` / `:.1f` format specifiers use round-half-to-even, as Python does;
  `int(x)` truncates toward zero.

Definitions keep the source's snake_case names wherever Lean allows.
-/

/-! ## Python numeric primitives -/

/-- Python `int(x)` on a float/rational: truncation toward zero
(`Int.div` is T-division, matching Python's `int()`). -/
def pyInt (q : ℚ) : ℤ := Int.tdiv q.num q.den

/-- Round-half-to-even to the nearest integer, the rounding used by Python's
`round` builtin and by the `:.0f` / `:.1f` format specifiers. -/
def roundHalfEven (q : ℚ) : ℤ :=
  let f := ⌊q⌋
  let r := q - f
  if r < 1/2 then f
  else if r > 1/2 then f + 1
  else if Even f then f else f + 1

/-- Python `round(x, 1)`: round to one decimal place, half to even. -/
def round1 (q : ℚ) : ℚ := (roundHalfEven (q * 10) : ℚ) / 10

/-- Python f-string `{x:.0f}` for the non-negative values used here. -/
def fmt0f (q : ℚ) : String := toString (roundHalfEven q)

/-- Python f-string `{x:.1f}` for the non-negative values used here. -/
def fmt1f (q : ℚ) : String :=
  let t := roundHalfEven (q * 10)
  toString (t / 10) ++ "." ++ toString (t % 10)

/-- Fractional-digit expansion of `q ∈ [0,1)`, up to `fuel` digits,
stopping when the remainder hits zero (used to display floats). -/
def fracDigits : Nat → ℚ → List Char
  | 0, _ => []
  | fuel + 1, q =>
    if q = 0 then []
    else
      let d := ⌊q * 10⌋
      (Char.ofNat (48 + d.toNat)) :: fracDigits fuel (Int.fract (q * 10))

/-- Python `str` of a float value modelled as a rational: an integer value
prints with a trailing `.0` (e.g. `str(3.0) = "3.0"`), otherwise the exact
decimal expansion is printed (the rationals produced by this embedding all
have finite decimal expansions). -/
def showPyFloat (q : ℚ) : String :=
  let sign := if q < 0 then "-" else ""
  let a := |q|
  let ip := ⌊a⌋
  let fr := Int.fract a
  if fr = 0 then sign ++ toString ip ++ ".0"
  else sign ++ toString ip ++ "." ++ String.mk (fracDigits 12 fr)

/-! ## Python values for loosely-typed fields

The scraper returns a loosely typed dict; fields that the code feeds to
`format_installs` / `format_size` may be ints, strings or missing. -/

inductive PyVal where
  | pint (n : ℤ)
  | pstr (s : String)
  | pnone
deriving DecidableEq, Repr

/-- Python truthiness of a `PyVal` (`0`, `""` and `None` are falsy). -/
def pyFalsy : PyVal → Bool
  | .pint n => n = 0
  | .pstr s => s = ""
  | .pnone => true

/-- Decimal-string parse modelling Python `float(s)` on the plain
`digits[.digits]` forms that can appear in a size field; any other string
makes `float` raise (modelled as `none`). -/
def parseDecimal (s : String) : Option ℚ :=
  match s.splitOn "." with
  | [a] =>
    if a ≠ "" ∧ a.all Char.isDigit then some ((a.toNat! : ℤ) : ℚ) else none
  | [a, b] =>
    if a ≠ "" ∧ b ≠ "" ∧ a.all Char.isDigit ∧ b.all Char.isDigit then
      some ((a.toNat! : ℚ) + (b.toNat! : ℚ) / ((10 : ℚ) ^ b.length))
    else none
  | _ => none

/-- Python `float(x)` on a `PyVal`; `none` models a raised exception. -/
def pyToFloat : PyVal → Option ℚ
  | .pint n => some (n : ℚ)
  | .pstr s => parseDecimal s
  | .pnone => none

/-! ## `format_installs` (src/app.py lines 44-57) -/

/-- Embedding of `format_installs`.  Comparing a non-int against an int
raises `TypeError` in Python, so non-int arguments fall into the `except`
branch and yield `"0+"`. -/
def format_installs : PyVal → String
  | .pint n =>
    if n ≥ 1000000000 then fmt0f ((n : ℚ) / 1000000000) ++ "B+"
    else if n ≥ 1000000 then fmt0f ((n : ℚ) / 1000000) ++ "M+"
    else if n ≥ 1000 then fmt0f ((n : ℚ) / 1000) ++ "K+"
    else toString n
  | _ => "0+"

/-! ## `format_size` (src/app.py lines 59-72) -/

/-- Embedding of `format_size`. -/
def format_size (size_bytes : PyVal) : String :=
  if pyFalsy size_bytes then "Varies"
  else
    match pyToFloat size_bytes with
    | none => "Varies"
    | some q =>
      let size_mb := q / (1024 * 1024)
      if size_mb < 1 then toString (pyInt (q / 1024)) ++ " KB"
      else if size_mb < 1024 then fmt1f size_mb ++ " MB"
      else fmt1f (size_mb / 1024) ++ " GB"

/-! ## `get_youtube_embed_url` (src/app.py lines 74-87) -/

/-- Character class `[0-9A-Za-z_-]` of the video-id regex. -/
def isVideoIdChar (c : Char) : Bool :=
  c.isDigit || c.isUpper || c.isLower || c = '_' || c = '-'

/-- Leftmost match of `(?:v=|\/)([0-9A-Za-z_-]{11})` over a char list. -/
def findVideoId : List Char → Option (List Char)
  | [] => none
  | c :: rest =>
    if c = 'v' ∧ rest.head? = some '=' ∧
        (rest.tail.take 11).length = 11 ∧ (rest.tail.take 11).all isVideoIdChar then
      some (rest.tail.take 11)
    else if c = '/' ∧ (rest.take 11).length = 11 ∧ (rest.take 11).all isVideoIdChar then
      some (rest.take 11)
    else
      findVideoId rest

/-- Embedding of `get_youtube_embed_url`; `none` is Python `None`. -/
def get_youtube_embed_url (video_url : Option String) : Option String :=
  match video_url with
  | none => none
  | some u =>
    if u = "" then none
    else
      match findVideoId u.toList with
      | some videoId => some ("https://www.youtube.com/embed/" ++ String.mk videoId)
      | none => none

/-! ## `download_image` (src/app.py lines 89-108) -/

/-- The filesystem: a map from path to optional byte content. -/
structure FS where
  files : String → Option (List Nat)

/-- Result of one `download_image` call: the returned boolean, the
filesystem afterwards, and whether an HTTP request / file write happened. -/
structure DLResult where
  ok : Bool
  fs : FS
  requested : Bool
  wrote : Bool

/-- Embedding of `download_image`.  `http url = none` models
`requests.get` raising or `raise_for_status` firing; both land in the
`except` branch which returns `False`. -/
def download_image (http : String → Option (List Nat)) (fs : FS)
    (url save_path : String) : DLResult :=
  if (fs.files save_path).isSome then
    { ok := true, fs := fs, requested := false, wrote := false }
  else
    match http url with
    | none => { ok := false, fs := fs, requested := true, wrote := false }
    | some content =>
      { ok := true
        fs := ⟨fun p => if p = save_path then some content else fs.files p⟩
        requested := true, wrote := true }

/-! ## Hex colors and `colorsys` -/

/-- Lowercase hex digits, as produced by Python's `{:x}` format. -/
def hexDigitChars : List Char := "0123456789abcdef".toList

def hexChar (n : Nat) : Char := hexDigitChars.getD n '0'

/-- Hex digits of `n` (empty for `0`), most significant first; the fuel
argument (any value `≥ n` is enough, and `natHex` passes `n` itself)
makes the recursion structural. -/
def natHexGo : Nat → Nat → List Char
  | _, 0 => []
  | 0, _ + 1 => []
  | fuel + 1, n + 1 => natHexGo fuel ((n + 1) / 16) ++ [hexChar ((n + 1) % 16)]

/-- Hex digits of `n` (empty for `0`), most significant first. -/
def natHex (n : Nat) : List Char := natHexGo n n

/-- Python `'{:02x}'.format n` for a natural number. -/
def pyHex02 (n : Nat) : String :=
  let ds := if n = 0 then ['0'] else natHex n
  String.mk (List.replicate (2 - ds.length) '0' ++ ds)

/-- Value of one hex digit, accepting both cases as Python `int(_, 16)` does. -/
def hexDigitVal (c : Char) : Option Nat :=
  if c.isDigit then some (c.toNat - 48)
  else if 'a' ≤ c ∧ c ≤ 'f' then some (c.toNat - 87)
  else if 'A' ≤ c ∧ c ≤ 'F' then some (c.toNat - 55)
  else none

/-- Python `int(s, 16)` on a (possibly short) two-char slice; `none` models
the `ValueError` raised on an empty or non-hex slice. -/
def hexSliceVal (cs : List Char) : Option Nat :=
  match cs with
  | [] => none
  | [c] => hexDigitVal c
  | [c1, c2] =>
    match hexDigitVal c1, hexDigitVal c2 with
    | some v1, some v2 => some (16 * v1 + v2)
    | _, _ => none
  | _ => none

/-- The hex-triple parse performed at the top of `vary_color`:
`lstrip('#')` then `int(hex[i:i+2], 16)` for `i = 0, 2, 4`. -/
def parseHexColor (s : String) : Option (Nat × Nat × Nat) :=
  let cs := s.toList.dropWhile (· = '#')
  match hexSliceVal (cs.take 2), hexSliceVal ((cs.drop 2).take 2),
      hexSliceVal ((cs.drop 4).take 2) with
  | some r, some g, some b => some (r, g, b)
  | _, _, _ => none

/-- `colorsys.rgb_to_hsv`, exactly on rationals. -/
def rgb_to_hsv (r g b : ℚ) : ℚ × ℚ × ℚ :=
  let maxc := max r (max g b)
  let minc := min r (min g b)
  let v := maxc
  if maxc = minc then (0, 0, v)
  else
    let s := (maxc - minc) / maxc
    let rc := (maxc - r) / (maxc - minc)
    let gc := (maxc - g) / (maxc - minc)
    let bc := (maxc - b) / (maxc - minc)
    let h := if r = maxc then bc - gc
             else if g = maxc then 2 + rc - bc
             else 4 + gc - rc
    (Int.fract (h / 6), s, v)

/-- `colorsys.hsv_to_rgb`, exactly on rationals (`int` truncates toward 0,
`%` is Python's nonnegative-remainder mod). -/
def hsv_to_rgb (h s v : ℚ) : ℚ × ℚ × ℚ :=
  if s = 0 then (v, v, v)
  else
    let i : ℤ := pyInt (h * 6)
    let f := h * 6 - (i : ℚ)
    let p := v * (1 - s)
    let q := v * (1 - s * f)
    let t := v * (1 - s * (1 - f))
    match (i % 6).toNat with
    | 0 => (v, t, p)
    | 1 => (q, v, p)
    | 2 => (p, v, t)
    | 3 => (p, q, v)
    | 4 => (t, p, v)
    | _ => (v, p, q)

/-! ## Randomness

The global `random` generator is modelled as a stream of raw draws: a
natural-number stream for the discrete primitives and a rational stream for
the continuous ones.  Each primitive consumes one draw at an explicit
index. -/

structure RStream where
  nat : Nat → Nat
  q : Nat → ℚ

/-- Model of `random.uniform a b`: a value in `[a, b)` driven by one raw
rational draw. -/
def uniformQ (a b : ℚ) (draw : ℚ) : ℚ := a + (b - a) * Int.fract draw

/-- Model of `random.choice` on a list, driven by one raw draw. -/
def pyChoice (l : List String) (draw : Nat) : String := l.getD (draw % l.length) ""

/-- Model of `random.choice` on a list of booleans. -/
def pyChoiceB (l : List Bool) (draw : Nat) : Bool := l.getD (draw % l.length) false

/-- Model of `random.randint a b` (both ends inclusive). -/
def pyRandint (a b : Nat) (draw : Nat) : Nat := a + draw % (b - a + 1)

/-! ## `vary_color` (src/app.py lines 110-127) -/

/-- Embedding of `vary_color`.  The three raw draws `dh ds dv` feed the
three `random.uniform` calls.  A failing hex parse models the `int(_, 16)`
exception, whose handler returns the input unchanged. -/
def vary_color (hex_color : String) (variation : ℚ) (dh ds dv : ℚ) : String :=
  match parseHexColor hex_color with
  | none => hex_color
  | some (r, g, b) =>
    let hsv := rgb_to_hsv ((r : ℚ) / 255) ((g : ℚ) / 255) ((b : ℚ) / 255)
    let h := Int.fract (hsv.1 + uniformQ (-variation) variation dh)
    let s := max 0 (min 1 (hsv.2.1 + uniformQ (-(variation / 2)) (variation / 2) ds))
    let v := max (3/10) (min 1 (hsv.2.2 + uniformQ (-(variation / 2)) (variation / 2) dv))
    let rgb := hsv_to_rgb h s v
    "#" ++ pyHex02 (pyInt (rgb.1 * 255)).toNat ++ pyHex02 (pyInt (rgb.2.1 * 255)).toNat
      ++ pyHex02 (pyInt (rgb.2.2 * 255)).toNat

/-! ## `extract_dominant_colors` (src/app.py lines 129-147) -/

/-- An 8-bit RGB pixel triple, the element type of a ColorThief palette. -/
abbrev Rgb := Fin 256 × Fin 256 × Fin 256

/-- `'#{:02x}{:02x}{:02x}'.format(rgb[0], rgb[1], rgb[2])`. -/
def rgbHexString (rgb : Rgb) : String :=
  "#" ++ pyHex02 rgb.1 ++ pyHex02 rgb.2.1 ++ pyHex02 rgb.2.2

def default_colors : List String := ["#4285f4", "#34a853", "#fbbc04"]

/-- The palette loop of `extract_dominant_colors`: each entry is formatted
and passed to `vary_color _ 0.1`, consuming three draws. -/
def varyPalette (g : RStream) : Nat → List Rgb → List String
  | _, [] => []
  | k, rgb :: rest =>
    vary_color (rgbHexString rgb) (1/10) (g.q k) (g.q (k + 1)) (g.q (k + 2))
      :: varyPalette g (k + 3) rest

/-- The `while len(colors) < 3` padding loop: each round draws a random
default color and varies it with the default variation `0.15`. -/
def padColors (g : RStream) : Nat → Nat → List String
  | _, 0 => []
  | k, n + 1 =>
    vary_color (pyChoice default_colors (g.nat k)) (15/100)
        (g.q (k + 1)) (g.q (k + 2)) (g.q (k + 3))
      :: padColors g (k + 4) n

/-- The `except` branch: every default color through `vary_color` with the
default variation. -/
def varyDefaults (g : RStream) : Nat → List String → List String
  | _, [] => []
  | k, c :: rest =>
    vary_color c (15/100) (g.q k) (g.q (k + 1)) (g.q (k + 2))
      :: varyDefaults g (k + 3) rest

/-- Embedding of `extract_dominant_colors` with `num_colors = 3` (the only
call the service makes).  `pal = none` models `ColorThief` /
`get_palette` raising. -/
def extract_dominant_colors (pal : Option (List Rgb)) (g : RStream) : List String :=
  match pal with
  | some palette =>
    let colors := varyPalette g 0 (palette.take 3)
    colors ++ padColors g (3 * colors.length) (3 - colors.length)
  | none => varyDefaults g 0 default_colors

/-! ## Play-store search results and `get_similar_apps`
(src/app.py lines 149-191) -/

/-- One entry of a `google_play_scraper.search` result list; every field is
optional because the code reads them with `.get`. -/
structure SearchEntry where
  appId : Option String
  title : Option String
  icon : Option String
  score : Option ℚ
deriving DecidableEq, Repr

/-- One entry of the `similar_apps` list built by `get_similar_apps`.
`rating = none` models the Python int `0` placed when the score is falsy;
`rating = some q` models the float `round(score, 1)`. -/
structure SimilarApp where
  title : String
  icon : String
  package_name : String
  rating : Option ℚ
  icon_local : Option String
deriving DecidableEq, Repr

/-- The dict literal appended for a search entry (both passes build the
same shape; `icon_local` is only added later, by `process_app_data`). -/
def mkSimilar (a : SearchEntry) : SimilarApp :=
  { title := a.title.getD ""
    icon := a.icon.getD ""
    package_name := a.appId.getD ""
    rating :=
      match a.score with
      | none => none
      | some q => if q = 0 then none else some (round1 q)
    icon_local := none }

/-- `app.get('appId') != package_name`: `None` compares unequal to any
string. -/
def appIdDiffers (a : SearchEntry) (package_name : String) : Bool :=
  match a.appId with
  | none => true
  | some x => x ≠ package_name

/-- `any(s['package_name'] == app.get('appId') for s in similar_apps)`:
a stored string never equals `None`. -/
def alreadyCollected (s : List SimilarApp) (a : SearchEntry) : Bool :=
  s.any fun e =>
    match a.appId with
    | none => false
    | some x => e.package_name = x

/-- `category.split('_')[-1] if '_' in category else category`. -/
def categoryKeywords (category : String) : String :=
  if category.contains '_' then (category.splitOn "_").getLast! else category

/-- The category-search loop: append entries that pass both checks and
`break` once `max_apps` is reached (checked after appending). -/
def catLoop (package_name : String) (max_apps : Nat) :
    List SimilarApp → List SearchEntry → List SimilarApp
  | s, [] => s
  | s, a :: rest =>
    if appIdDiffers a package_name ∧ ¬ alreadyCollected s a then
      let s' := s ++ [mkSimilar a]
      if max_apps ≤ s'.length then s'
      else catLoop package_name max_apps s' rest
    else catLoop package_name max_apps s rest

/-- The developer-search pass of `get_similar_apps`: when the developer
name is truthy, every result whose `appId` differs from the requested
package is appended; a raised `search` (`none`) leaves the list empty. -/
def devPassApps (package_name : String) (developer : Option String)
    (search : String → Nat → Option (List SearchEntry)) : List SimilarApp :=
  if developer.getD "" ≠ "" then
    match search (developer.getD "") 5 with
    | none => []
    | some dev_results =>
      (dev_results.filter (appIdDiffers · package_name)).map mkSimilar
  else []

/-- Embedding of `get_similar_apps`.  `search q n = none` models the
`search` call raising (swallowed by the inner `try`). -/
def get_similar_apps (package_name : String) (developer category : Option String)
    (search : String → Nat → Option (List SearchEntry)) (max_apps : Nat) :
    List SimilarApp :=
  let similar_apps : List SimilarApp := devPassApps package_name developer search
  let similar_apps :=
    if similar_apps.length < 4 ∧ category.getD "" ≠ "" then
      match search (categoryKeywords (category.getD "")) 10 with
      | none => similar_apps
      | some cat_results => catLoop package_name max_apps similar_apps cat_results
    else similar_apps
  similar_apps.take max_apps

/-! ## `process_app_data` (src/app.py lines 193-315) -/

/-- `re.sub('<.*?>', '', s)`: scanning left to right, each `<` that is
followed (with no intervening newline) by a `>` is removed together with
everything up to the first such `>`; `.` does not match a newline, so a
`<` with no newline-free closing `>` stays in the output.  The scan is a
state machine: outside a candidate tag, characters pass through; after a
`<` the characters are held pending until a `>` discards them (a match),
a newline flushes them (no `<` before the newline can match), or the input
ends. -/
def stripTagsGo : Option (List Char) → List Char → List Char
  | none, [] => []
  | some pend, [] => pend.reverse
  | none, c :: rest =>
    if c = '<' then stripTagsGo (some [c]) rest
    else c :: stripTagsGo none rest
  | some pend, c :: rest =>
    if c = '>' then stripTagsGo none rest
    else if c = '\n' then pend.reverse ++ '\n' :: stripTagsGo none rest
    else stripTagsGo (some (c :: pend)) rest

/-- String version of the tag-stripping regex substitution. -/
def stripTags (s : String) : String := String.mk (stripTagsGo none s.toList)

/-- One entry of the scraper's `comments` list. -/
structure CommentIn where
  userName : Option String
  score : Option ℚ
  text : Option String
  date : Option String
deriving DecidableEq, Repr

/-- The record returned by `google_play_scraper.app`; every field the code
reads is optional (`.get`), mirroring a partially-populated dict. -/
structure Record where
  title : Option String
  developer : Option String
  descriptionHTML : Option String
  description : Option String
  summary : Option String
  score : Option ℚ
  ratings : Option Nat
  minInstalls : Option Nat
  genre : Option String
  genreId : Option String
  contentRating : Option String
  price : Option ℚ
  free : Option Bool
  updated : Option String
  version : Option String
  size : PyVal
  androidVersion : Option String
  developerEmail : Option String
  developerWebsite : Option String
  developerAddress : Option String
  recentChanges : Option String
  containsAds : Option Bool
  offersIAP : Option Bool
  icon : Option String
  headerImage : Option String
  screenshots : Option (List String)
  video : Option String
  comments : Option (List CommentIn)

/-- One entry of `processed_data['reviews']`. -/
structure Review where
  author : String
  rating : ℚ
  text : String
  date : String
deriving DecidableEq, Repr

/-- `{'author': …, 'rating': comment.get('score', 5), …}`. -/
def mkReview (c : CommentIn) : Review :=
  { author := c.userName.getD "User"
    rating := c.score.getD 5
    text := c.text.getD ""
    date := c.date.getD "" }

/-- `processed_data`, the dict assembled by `process_app_data`.
`rating = none` models the Python int `0` used when the score is falsy
(it prints as `0`, while `some q` prints as a float). -/
structure ProcessedData where
  title : String
  developer : String
  description : String
  summary : String
  rating : Option ℚ
  ratings_count : Nat
  installs : String
  installs_raw : Nat
  package_name : String
  language : String
  colors : List String
  icon : Option String
  cover : Option String
  screenshots : List String
  video : Option String
  category : String
  category_id : String
  content_rating : String
  price : ℚ
  free : Bool
  updated : String
  version : String
  size : String
  android_version : String
  developer_email : String
  developer_website : String
  developer_address : String
  similar_apps : List SimilarApp
  reviews : List Review
  recent_changes : String
  contains_ads : Bool
  in_app_purchases : Bool

/-- The external effects `process_app_data` depends on: HTTP image fetches,
Play-store search, ColorThief palette extraction keyed by image path, and
the random stream consumed by `extract_dominant_colors`. -/
structure Oracles where
  http : String → Option (List Nat)
  search : String → Nat → Option (List SearchEntry)
  palette : String → Option (List Rgb)
  rand : RStream

/-- The screenshots download loop (`for i, screenshot_url in enumerate`):
a screenshot enters the list exactly when its download returned `True`;
the index advances regardless. -/
def screenshotsLoop (http : String → Option (List Nat)) (dir : String) :
    FS → Nat → List String → List String × FS
  | fs, _, [] => ([], fs)
  | fs, i, url :: rest =>
    let fname := "screenshot_" ++ toString i ++ ".jpg"
    let res := download_image http fs url (dir ++ "/" ++ fname)
    let ⟨l, fs'⟩ := screenshotsLoop http dir res.fs (i + 1) rest
    (if res.ok then fname :: l else l, fs')

/-- The similar-app icons loop: when an entry has a (truthy) remote icon
URL and its download returns `True`, the entry gains `icon_local`. -/
def similarIconsLoop (http : String → Option (List Nat)) (dir : String) :
    FS → Nat → List SimilarApp → List SimilarApp × FS
  | fs, _, [] => ([], fs)
  | fs, i, a :: rest =>
    if a.icon ≠ "" then
      let fname := "similar_" ++ toString i ++ ".png"
      let res := download_image http fs a.icon (dir ++ "/" ++ fname)
      let a' := if res.ok then { a with icon_local := some fname } else a
      let ⟨l, fs'⟩ := similarIconsLoop http dir res.fs (i + 1) rest
      (a' :: l, fs')
    else
      let ⟨l, fs'⟩ := similarIconsLoop http dir fs (i + 1) rest
      (a :: l, fs')

/-- The directory images for `package_name` are saved in
(`os.path.join(IMAGES_DIR, package_name)` with `IMAGES_DIR =
'/app/static/images'`). -/
def app_images_dir (package_name : String) : String :=
  "/app/static/images/" ++ package_name

/-- The icon block of `process_app_data` (src/app.py lines 254-259):
download the icon if the record carries a truthy URL, and on success set
the stored filename and extract the palette.  Returns the stored `icon`
value, the `colors` value and the filesystem afterwards. -/
def iconStep (package_name : String) (r : Record) (fs : FS) (o : Oracles) :
    Option String × List String × FS :=
  let dir := app_images_dir package_name
  if r.icon.getD "" ≠ "" then
    let res := download_image o.http fs (r.icon.getD "") (dir ++ "/" ++ "icon.png")
    if res.ok then
      (some "icon.png",
       extract_dominant_colors (o.palette (dir ++ "/" ++ "icon.png")) o.rand,
       res.fs)
    else (none, default_colors, res.fs)
  else (none, default_colors, fs)

/-- The cover block of `process_app_data` (src/app.py lines 261-265). -/
def coverStep (package_name : String) (r : Record) (fs : FS) (o : Oracles) :
    Option String × FS :=
  let dir := app_images_dir package_name
  if r.headerImage.getD "" ≠ "" then
    let res := download_image o.http fs (r.headerImage.getD "")
      (dir ++ "/" ++ "cover.jpg")
    (if res.ok then some "cover.jpg" else none, res.fs)
  else (none, fs)

/-- Core of `process_app_data`, after a successful scraper call: assembles
`processed_data` and threads the filesystem through every
`download_image` call.  Field by field it mirrors src/app.py lines
208-311. -/
def processAppData (package_name language : String) (r : Record) (fs : FS)
    (o : Oracles) : ProcessedData × FS :=
  let dir := app_images_dir package_name
  let full_description :=
    stripTags (if r.descriptionHTML.getD "" ≠ "" then r.descriptionHTML.getD ""
               else r.description.getD "")
  -- icon download and palette extraction
  let istep := iconStep package_name r fs o
  let fs1 := istep.2.2
  -- cover download
  let cstep := coverStep package_name r fs1 o
  let fs2 := cstep.2
  -- screenshots
  let shotsStep := screenshotsLoop o.http dir fs2 0 (r.screenshots.getD [])
  let fs3 := shotsStep.2
  -- similar apps and their icons
  let similar_apps := get_similar_apps package_name r.developer r.genreId o.search 8
  let simStep := similarIconsLoop o.http dir fs3 0 similar_apps
  let fs4 := simStep.2
  ({ title := r.title.getD "Unknown App"
     developer := r.developer.getD "Unknown Developer"
     description := full_description
     summary := r.summary.getD ""
     rating :=
       match r.score with
       | none => none
       | some q => if q = 0 then none else some (round1 q)
     ratings_count := r.ratings.getD 0
     installs := format_installs (.pint (r.minInstalls.getD 0))
     installs_raw := r.minInstalls.getD 0
     package_name := package_name
     language := language
     colors := istep.2.1
     icon := istep.1
     cover := cstep.1
     screenshots := shotsStep.1
     video :=
       if r.video.getD "" ≠ "" then get_youtube_embed_url (some (r.video.getD ""))
       else none
     category := r.genre.getD ""
     category_id := r.genreId.getD ""
     content_rating := r.contentRating.getD ""
     price := r.price.getD 0
     free := r.free.getD true
     updated := r.updated.getD ""
     version := r.version.getD ""
     size := format_size r.size
     android_version := r.androidVersion.getD ""
     developer_email := r.developerEmail.getD ""
     developer_website := r.developerWebsite.getD ""
     developer_address := r.developerAddress.getD ""
     similar_apps := simStep.1
     reviews :=
       match r.comments with
       | none => []
       | some l => if l ≠ [] then (l.take 5).map mkReview else []
     recent_changes := r.recentChanges.getD ""
     contains_ads := r.containsAds.getD false
     in_app_purchases := r.offersIAP.getD false }, fs4)

/-- Embedding of `process_app_data`: `resp = none` models the scraper
raising or returning a falsy record, where the function returns `None`. -/
def process_app_data (package_name language : String) (resp : Option Record)
    (fs : FS) (o : Oracles) : Option (ProcessedData × FS) :=
  resp.map fun r => processAppData package_name language r fs o

/-! ## `generate_randomization_params` (src/app.py lines 1120-1172) -/

/-- The design-randomization parameter set (the dict built at src/app.py
lines 1123-1148). -/
structure Params where
  layout_style : String
  hero_layout : String
  screenshot_layout : String
  font_family : String
  heading_weight : String
  title_size : ℚ
  container_padding : Nat
  section_spacing : Nat
  border_radius : Nat
  button_radius : String
  shadow_intensity : ℚ
  gradient_angle : Nat
  animation_speed : ℚ
  use_gradient_bg : Bool
  dark_mode : Bool
  stats_style : String
  button_style : String
  description_style : String
  sections_order : List String
deriving DecidableEq, Repr

/-- Model of `random.sample(l, 3)` on a three-element list: selection
sampling without replacement, driven by two raw draws (the last element is
forced). -/
def pySample3 (l : List String) (n0 n1 : Nat) : List String :=
  match l with
  | [] => []
  | _ =>
    let j0 := n0 % l.length
    let a := l.getD j0 ""
    let l1 := l.eraseIdx j0
    match l1 with
    | [] => [a]
    | _ =>
      let j1 := n1 % l1.length
      let b := l1.getD j1 ""
      let l2 := l1.eraseIdx j1
      a :: b :: l2

/-- Embedding of `generate_randomization_params`.  The draws are consumed
at fixed indices in source order (indices 0-17, plus 18-19 for
`random.sample`); nothing in the `try` body can raise, so the embedding is
the `try` branch. -/
def generate_randomization_params (g : RStream) : Params :=
  { layout_style := pyChoice ["classic", "modern", "minimal", "bold", "elegant"] (g.nat 0)
    hero_layout := pyChoice ["left-aligned", "center-aligned", "right-aligned"] (g.nat 1)
    screenshot_layout := pyChoice ["grid", "carousel", "masonry"] (g.nat 2)
    font_family := pyChoice
      ["-apple-system, BlinkMacSystemFont, \"Segoe UI\", Roboto, Oxygen, Ubuntu, sans-serif",
       "\"SF Pro Display\", -apple-system, BlinkMacSystemFont, sans-serif",
       "Inter, -apple-system, BlinkMacSystemFont, sans-serif",
       "\"Google Sans\", Roboto, Arial, sans-serif"] (g.nat 3)
    heading_weight := pyChoice ["600", "700", "800", "900"] (g.nat 4)
    title_size := uniformQ (22/10) 3 (g.q 5)
    container_padding := pyRandint 20 40 (g.nat 6)
    section_spacing := pyRandint 30 50 (g.nat 7)
    border_radius := pyRandint 10 25 (g.nat 8)
    button_radius := pyChoice ["50px", "15px", "25px", "10px"] (g.nat 9)
    shadow_intensity := uniformQ (5/100) (2/10) (g.q 10)
    gradient_angle := pyRandint 90 180 (g.nat 11)
    animation_speed := uniformQ (2/10) (5/10) (g.q 12)
    use_gradient_bg := pyChoiceB [true, false] (g.nat 13)
    dark_mode := pyChoiceB [false, false, false, true] (g.nat 14)
    stats_style := pyChoice ["inline", "cards", "badges"] (g.nat 15)
    button_style := pyChoice ["solid", "gradient", "outline"] (g.nat 16)
    description_style := pyChoice ["card", "transparent", "bordered"] (g.nat 17)
    sections_order := pySample3 ["description", "video", "screenshots"] (g.nat 18) (g.nat 19) }

/-- The fixed fallback parameter set of the `except` branch
(src/app.py lines 1152-1172). -/
def fallback_randomization_params : Params :=
  { layout_style := "classic"
    hero_layout := "left-aligned"
    screenshot_layout := "grid"
    font_family := "-apple-system, BlinkMacSystemFont, sans-serif"
    heading_weight := "700"
    title_size := 25/10
    container_padding := 30
    section_spacing := 40
    border_radius := 15
    button_radius := "50px"
    shadow_intensity := 1/10
    gradient_angle := 135
    animation_speed := 3/10
    use_gradient_bg := false
    dark_mode := false
    stats_style := "inline"
    button_style := "gradient"
    description_style := "card"
    sections_order := ["description", "video", "screenshots"] }

/-! ## `generate_html` (src/app.py lines 317-1118)

`template_data = {**app_data, **r, 'landing_id': landing_id}` merges the
processed record with the randomization parameters; the image fields are
then rewritten to `/landing/<landing_id>/<filename>` paths, and the Jinja2
template is rendered to a string. -/

/-- The merged template context. -/
structure TemplateData where
  title : String
  developer : String
  description : String
  summary : String
  rating : Option ℚ
  ratings_count : Nat
  installs : String
  installs_raw : Nat
  package_name : String
  language : String
  colors : List String
  icon : Option String
  cover : Option String
  screenshots : List String
  video : Option String
  category : String
  content_rating : String
  free : Bool
  updated : String
  version : String
  size : String
  android_version : String
  developer_email : String
  developer_website : String
  similar_apps : List SimilarApp
  recent_changes : String
  contains_ads : Bool
  in_app_purchases : Bool
  layout_style : String
  hero_layout : String
  screenshot_layout : String
  font_family : String
  heading_weight : String
  title_size : ℚ
  container_padding : Nat
  section_spacing : Nat
  border_radius : Nat
  button_radius : String
  shadow_intensity : ℚ
  gradient_angle : Nat
  animation_speed : ℚ
  use_gradient_bg : Bool
  dark_mode : Bool
  stats_style : String
  button_style : String
  sections_order : List String
  landing_id : String

/-- Truthiness of an optional-string field under Jinja2/Python
(`None` and `''` are falsy). -/
def optTruthy (o : Option String) : Bool :=
  match o with
  | none => false
  | some s => s ≠ ""

/-- The merge and image-path rewriting at src/app.py lines 320-334: every
truthy image reference becomes `/landing/<landing_id>/<filename>`. -/
def templateDataOf (d : ProcessedData) (r : Params) (landing_id : String) :
    TemplateData :=
  let pre := fun s => "/landing/" ++ landing_id ++ "/" ++ s
  { title := d.title
    developer := d.developer
    description := d.description
    summary := d.summary
    rating := d.rating
    ratings_count := d.ratings_count
    installs := d.installs
    installs_raw := d.installs_raw
    package_name := d.package_name
    language := d.language
    colors := d.colors
    icon := match d.icon with
      | some s => if s ≠ "" then some (pre s) else some s
      | none => none
    cover := match d.cover with
      | some s => if s ≠ "" then some (pre s) else some s
      | none => none
    screenshots := if d.screenshots ≠ [] then d.screenshots.map pre else d.screenshots
    video := d.video
    category := d.category
    content_rating := d.content_rating
    free := d.free
    updated := d.updated
    version := d.version
    size := d.size
    android_version := d.android_version
    developer_email := d.developer_email
    developer_website := d.developer_website
    similar_apps := d.similar_apps.map fun a =>
      match a.icon_local with
      | some s => if s ≠ "" then { a with icon_local := some (pre s) } else a
      | none => a
    recent_changes := d.recent_changes
    contains_ads := d.contains_ads
    in_app_purchases := d.in_app_purchases
    layout_style := r.layout_style
    hero_layout := r.hero_layout
    screenshot_layout := r.screenshot_layout
    font_family := r.font_family
    heading_weight := r.heading_weight
    title_size := r.title_size
    container_padding := r.container_padding
    section_spacing := r.section_spacing
    border_radius := r.border_radius
    button_radius := r.button_radius
    shadow_intensity := r.shadow_intensity
    gradient_angle := r.gradient_angle
    animation_speed := r.animation_speed
    use_gradient_bg := r.use_gradient_bg
    dark_mode := r.dark_mode
    stats_style := r.stats_style
    button_style := r.button_style
    sections_order := r.sections_order
    landing_id := landing_id }

/-- The sections the `{% for section in sections_order %}` loop actually
emits: a section is rendered when its name comes up in `sections_order`
and its data is truthy. -/
def emittedSections (t : TemplateData) : List String :=
  t.sections_order.filter fun sec =>
    (sec == "description" && t.description != "") ||
    (sec == "video" && optTruthy t.video) ||
    (sec == "screenshots" && !t.screenshots.isEmpty)

/-- The `src` attributes of every `<img>` tag the template emits, in
template order: the hero icon (inside `{% if icon %}`), the screenshots of
each `screenshots` section occurrence, and the similar-app icons (inside
`{% if similar_apps %}` / `{% if app.icon_local %}`). -/
def imageSrcs (t : TemplateData) : List String :=
  (match t.icon with
   | some s => if s ≠ "" then [s] else []
   | none => []) ++
  (t.sections_order.foldr (fun sec acc =>
    (if sec = "screenshots" ∧ t.screenshots ≠ [] then t.screenshots else []) ++ acc) []) ++
  (if t.similar_apps ≠ [] then
    t.similar_apps.foldr (fun a acc =>
      (match a.icon_local with
       | some s => if s ≠ "" then [s] else []
       | none => []) ++ acc) []
   else [])

/-- Truthiness of a rating value (`0` and the defaulted int `0` are falsy,
any other rounded score is truthy). -/
def ratingTruthy (r : Option ℚ) : Bool :=
  match r with
  | none => false
  | some q => q ≠ 0

/-- Jinja2’s rendering of the rating value: the defaulted Python int `0`
prints as `0`, a rounded score prints as a float. -/
def showRating (r : Option ℚ) : String :=
  match r with
  | none => "0"
  | some q => showPyFloat q

/-- Right-nested concatenation of the template pieces. -/
def strConcat : List String → String
  | [] => ""
  | s :: rest => s ++ strConcat rest

/-- The Jinja2 template of `generate_html` (src/app.py lines 336-1113),
rendered exactly: `{{ … }}` substitutions become the corresponding
`TemplateData` fields, `{% if/elif/else %}` become conditionals on the
same fields, `{% for %}` become maps, and all literal text (with `trim_blocks`
off, tags themselves produce no output) is kept verbatim. -/
def renderLanding (t : TemplateData) : String :=
  strConcat [
    "<!DOCTYPE html>\n<html lang=\"",
    (t.language),
    "\">\n<head>\n    <meta charset=\"UTF-8\">\n    <meta name=\"viewport\" content=\"width=device-width, initial-scale=1.0\">\n    <title>",
    (t.title),
    " - Download Mobile App</title>\n    <style>\n        :root \x7b\n            --primary-color: ",
    ((t.colors.getD 0 "")),
    ";\n            --secondary-color: ",
    ((t.colors.getD 1 "")),
    ";\n            --accent-color: ",
    ((t.colors.getD 2 "")),
    ";\n            --shadow-intensity: ",
    (showPyFloat t.shadow_intensity),
    ";\n            --animation-speed: ",
    (showPyFloat t.animation_speed),
    "s;\n            --border-radius: ",
    (toString t.border_radius),
    "px;\n            --section-spacing: ",
    (toString t.section_spacing),
    "px;\n        \x7d\n        \n        * \x7b\n            margin: 0;\n            padding: 0;\n            box-sizing: border-box;\n        \x7d\n        \n        body ",
    "\x7b\n            font-family: ",
    (t.font_family),
    ";\n            line-height: 1.6;\n            color: ",
    (if t.dark_mode then
      strConcat [
        "#e0e0e0"]
    else
      strConcat [
        "#333"]),
    ";\n            ",
    (if t.use_gradient_bg then
      strConcat [
        "\n            background: linear-gradient(",
        (toString t.gradient_angle),
        "deg, \n                ",
        ((t.colors.getD 0 "")),
        "22 0%, \n                ",
        ((t.colors.getD 1 "")),
        "22 100%);\n            "]
    else
      strConcat [
        "\n            background: ",
        (if t.dark_mode then
          strConcat [
            "#121212"]
        else
          strConcat [
            "#f5f7fa"]),
        ";\n            "]),
    "\n            min-height: 100vh;\n        \x7d\n        \n        .container \x7b\n            max-width: 1200px;\n            margin: 0 auto;\n            padding",
    ": ",
    (toString t.container_padding),
    "px;\n        \x7d\n        \n        .hero \x7b\n            background: ",
    (if t.dark_mode then
      strConcat [
        "#1e1e1e"]
    else
      strConcat [
        "white"]),
    ";\n            border-radius: var(--border-radius);\n            padding: ",
    (toString t.section_spacing),
    "px;\n            margin-bottom: var(--section-spacing);\n            box-shadow: 0 10px 40px rgba(0,0,0,calc(var(--shadow-intensity)));\n            ",
    (if (t.layout_style = "modern") then
      strConcat [
        "\n            border: 1px solid ",
        ((t.colors.getD 0 "")),
        "22;\n            "]
    else if (t.layout_style = "bold") then
      strConcat [
        "\n            border-left: 5px solid var(--primary-color);\n            "]
    else ""),
    "\n        \x7d\n        \n        .app-header \x7b\n            display: flex;\n            align-items: center;\n            gap: 30px;\n            margin-bottom",
    ": 30px;\n            flex-wrap: wrap;\n            ",
    (if (t.hero_layout = "center-aligned") then
      strConcat [
        "\n            justify-content: center;\n            text-align: center;\n            "]
    else if (t.hero_layout = "right-aligned") then
      strConcat [
        "\n            flex-direction: row-reverse;\n            text-align: right;\n            "]
    else ""),
    "\n        \x7d\n        \n        .app-icon \x7b\n            width: 120px;\n            height: 120px;\n            border-radius: 25px;\n            box-shadow: ",
    "0 10px 30px rgba(0,0,0,0.15);\n            transition: transform var(--animation-speed);\n        \x7d\n        \n        .app-icon:hover \x7b\n            trans",
    "form: scale(1.05);\n        \x7d\n        \n        .app-info h1 \x7b\n            font-size: ",
    (showPyFloat t.title_size),
    "em;\n            font-weight: ",
    (t.heading_weight),
    ";\n            margin-bottom: 10px;\n            color: var(--primary-color);\n        \x7d\n        \n        .developer \x7b\n            color: ",
    (if t.dark_mode then
      strConcat [
        "#999"]
    else
      strConcat [
        "#666"]),
    ";\n            font-size: 1.1em;\n            margin-bottom: 15px;\n        \x7d\n        \n        ",
    (if (t.stats_style = "cards") then
      strConcat [
        "\n        .stats \x7b\n            display: flex;\n            gap: 20px;\n            flex-wrap: wrap;\n        \x7d\n        .stat \x7b\n            background: ",
        ((t.colors.getD 0 "")),
        "11;\n            padding: 12px 20px;\n            border-radius: 12px;\n            border: 1px solid ",
        ((t.colors.getD 0 "")),
        "33;\n        \x7d\n        "]
    else if (t.stats_style = "badges") then
      strConcat [
        "\n        .stats \x7b\n            display: flex;\n            gap: 15px;\n            flex-wrap: wrap;\n        \x7d\n        .stat \x7b\n            display: inline",
        "-flex;\n            align-items: center;\n            gap: 8px;\n            background: linear-gradient(135deg, ",
        ((t.colors.getD 0 "")),
        "22, ",
        ((t.colors.getD 1 "")),
        "22);\n            padding: 8px 16px;\n            border-radius: 20px;\n        \x7d\n        "]
    else
      strConcat [
        "\n        .stats \x7b\n            display: flex;\n            gap: 30px;\n            flex-wrap: wrap;\n        \x7d\n        .stat \x7b\n            display: flex;\n",
        "            align-items: center;\n            gap: 8px;\n        \x7d\n        "]),
    "\n        \n        .stat-label \x7b\n            color: ",
    (if t.dark_mode then
      strConcat [
        "#aaa"]
    else
      strConcat [
        "#999"]),
    ";\n            font-size: 0.9em;\n        \x7d\n        \n        .stat-value \x7b\n            font-weight: bold;\n            color: var(--primary-color);\n     ",
    "       font-size: 1.2em;\n        \x7d\n        \n        .app-meta \x7b\n            display: flex;\n            gap: 20px;\n            flex-wrap: wrap;\n       ",
    "     margin-top: 20px;\n            padding-top: 20px;\n            border-top: 1px solid ",
    (if t.dark_mode then
      strConcat [
        "#333"]
    else
      strConcat [
        "#eee"]),
    ";\n        \x7d\n        \n        .meta-item \x7b\n            display: flex;\n            flex-direction: column;\n            gap: 5px;\n        \x7d\n        \n    ",
    "    .meta-label \x7b\n            font-size: 0.85em;\n            color: ",
    (if t.dark_mode then
      strConcat [
        "#888"]
    else
      strConcat [
        "#666"]),
    ";\n        \x7d\n        \n        .meta-value \x7b\n            font-weight: 600;\n            color: ",
    (if t.dark_mode then
      strConcat [
        "#ddd"]
    else
      strConcat [
        "#333"]),
    ";\n        \x7d\n        \n        ",
    (if (t.button_style = "gradient") then
      strConcat [
        "\n        .download-button \x7b\n            display: inline-block;\n            background: linear-gradient(135deg, var(--primary-color), var(--secondary-c",
        "olor));\n            color: white;\n            padding: 15px 40px;\n            border-radius: ",
        (t.button_radius),
        ";\n            text-decoration: none;\n            font-size: 1.2em;\n            font-weight: bold;\n            margin-top: 30px;\n            box-shadow",
        ": 0 10px 30px rgba(0,0,0,0.2);\n            transition: all var(--animation-speed);\n        \x7d\n        "]
    else if (t.button_style = "outline") then
      strConcat [
        "\n        .download-button \x7b\n            display: inline-block;\n            background: transparent;\n            color: var(--primary-color);\n         ",
        "   border: 2px solid var(--primary-color);\n            padding: 15px 40px;\n            border-radius: ",
        (t.button_radius),
        ";\n            text-decoration: none;\n            font-size: 1.2em;\n            font-weight: bold;\n            margin-top: 30px;\n            transition",
        ": all var(--animation-speed);\n        \x7d\n        .download-button:hover \x7b\n            background: var(--primary-color);\n            color: white;\n     ",
        "   \x7d\n        "]
    else
      strConcat [
        "\n        .download-button \x7b\n            display: inline-block;\n            background: var(--primary-color);\n            color: white;\n            pad",
        "ding: 15px 40px;\n            border-radius: ",
        (t.button_radius),
        ";\n            text-decoration: none;\n            font-size: 1.2em;\n            font-weight: bold;\n            margin-top: 30px;\n            box-shadow",
        ": 0 5px 20px rgba(0,0,0,0.15);\n            transition: all var(--animation-speed);\n        \x7d\n        "]),
    "\n        \n        .download-button:hover \x7b\n            transform: translateY(-3px);\n            box-shadow: 0 15px 40px rgba(0,0,0,0.25);\n        \x7d\n  ",
    "      \n        .description \x7b\n            background: ",
    (if t.dark_mode then
      strConcat [
        "#1e1e1e"]
    else
      strConcat [
        "white"]),
    ";\n            padding: 30px;\n            border-radius: var(--border-radius);\n            margin-bottom: var(--section-spacing);\n            box-shado",
    "w: 0 5px 20px rgba(0,0,0,calc(var(--shadow-intensity)));\n        \x7d\n        \n        .description h2 \x7b\n            color: var(--primary-color);\n       ",
    "     margin-bottom: 15px;\n            font-weight: ",
    (t.heading_weight),
    ";\n        \x7d\n        \n        .description-text \x7b\n            color: ",
    (if t.dark_mode then
      strConcat [
        "#ccc"]
    else
      strConcat [
        "#555"]),
    ";\n            line-height: 1.8;\n            white-space: pre-wrap;\n        \x7d\n        \n        .read-more-btn \x7b\n            color: var(--primary-color)",
    ";\n            cursor: pointer;\n            font-weight: 600;\n            margin-left: 5px;\n            text-decoration: none;\n        \x7d\n        \n     ",
    "   .description-full \x7b\n            display: none;\n        \x7d\n        \n        .description-full.show \x7b\n            display: block;\n        \x7d\n        \n ",
    "       .video-section \x7b\n            background: ",
    (if t.dark_mode then
      strConcat [
        "#1e1e1e"]
    else
      strConcat [
        "white"]),
    ";\n            padding: 30px;\n            border-radius: var(--border-radius);\n            margin-bottom: var(--section-spacing);\n            box-shado",
    "w: 0 10px 30px rgba(0,0,0,calc(var(--shadow-intensity)));\n        \x7d\n        \n        .video-section h2 \x7b\n            color: var(--primary-color);\n    ",
    "        margin-bottom: 20px;\n            font-weight: ",
    (t.heading_weight),
    ";\n        \x7d\n        \n        .video-wrapper \x7b\n            position: relative;\n            padding-bottom: 56.25%;\n            height: 0;\n            o",
    "verflow: hidden;\n            border-radius: calc(var(--border-radius) / 2);\n        \x7d\n        \n        .video-wrapper iframe \x7b\n            position: a",
    "bsolute;\n            top: 0;\n            left: 0;\n            width: 100%;\n            height: 100%;\n            border: none;\n        \x7d\n        \n    ",
    "    .screenshots \x7b\n            background: ",
    (if t.dark_mode then
      strConcat [
        "#1e1e1e"]
    else
      strConcat [
        "white"]),
    ";\n            padding: 30px;\n            border-radius: var(--border-radius);\n            box-shadow: 0 10px 30px rgba(0,0,0,calc(var(--shadow-intensi",
    "ty)));\n            margin-bottom: var(--section-spacing);\n        \x7d\n        \n        .screenshots h2 \x7b\n            color: var(--primary-color);\n      ",
    "      margin-bottom: 20px;\n            font-weight: ",
    (t.heading_weight),
    ";\n        \x7d\n        \n        ",
    (if (t.screenshot_layout = "carousel") then
      strConcat [
        "\n        .screenshot-grid \x7b\n            display: flex;\n            gap: 20px;\n            overflow-x: auto;\n            padding-bottom: 10px;\n        ",
        "\x7d\n        .screenshot \x7b\n            min-width: 250px;\n            border-radius: 10px;\n            overflow: hidden;\n            box-shadow: 0 5px 15p",
        "x rgba(0,0,0,0.1);\n        \x7d\n        "]
    else if (t.screenshot_layout = "masonry") then
      strConcat [
        "\n        .screenshot-grid \x7b\n            columns: 3;\n            column-gap: 20px;\n        \x7d\n        .screenshot \x7b\n            break-inside: avoid;\n   ",
        "         margin-bottom: 20px;\n            border-radius: 10px;\n            overflow: hidden;\n            box-shadow: 0 5px 15px rgba(0,0,0,0.1);\n     ",
        "   \x7d\n        "]
    else
      strConcat [
        "\n        .screenshot-grid \x7b\n            display: grid;\n            grid-template-columns: repeat(auto-fit, minmax(200px, 1fr));\n            gap: 20px;",
        "\n        \x7d\n        .screenshot \x7b\n            border-radius: 10px;\n            overflow: hidden;\n            box-shadow: 0 5px 15px rgba(0,0,0,0.1);\n  ",
        "          transition: transform var(--animation-speed);\n        \x7d\n        "]),
    "\n        \n        .screenshot:hover \x7b\n            transform: scale(1.05);\n            box-shadow: 0 10px 30px rgba(0,0,0,0.2);\n        \x7d\n        \n    ",
    "    .screenshot img \x7b\n            width: 100%;\n            height: auto;\n            display: block;\n        \x7d\n        \n        .similar-apps \x7b\n      ",
    "      background: ",
    (if t.dark_mode then
      strConcat [
        "#1e1e1e"]
    else
      strConcat [
        "white"]),
    ";\n            padding: 30px;\n            border-radius: var(--border-radius);\n            margin-bottom: var(--section-spacing);\n            box-shado",
    "w: 0 10px 30px rgba(0,0,0,calc(var(--shadow-intensity)));\n        \x7d\n        \n        .similar-apps h2 \x7b\n            color: var(--primary-color);\n     ",
    "       margin-bottom: 20px;\n            font-weight: ",
    (t.heading_weight),
    ";\n        \x7d\n        \n        .similar-apps-grid \x7b\n            display: grid;\n            grid-template-columns: repeat(auto-fill, minmax(120px, 1fr));",
    "\n            gap: 20px;\n        \x7d\n        \n        .similar-app \x7b\n            text-align: center;\n            transition: transform var(--animation-sp",
    "eed);\n        \x7d\n        \n        .similar-app:hover \x7b\n            transform: translateY(-5px);\n        \x7d\n        \n        .similar-app-icon \x7b\n        ",
    "    width: 80px;\n            height: 80px;\n            border-radius: 20px;\n            margin: 0 auto 10px;\n            box-shadow: 0 5px 15px rgba(0",
    ",0,0,0.1);\n        \x7d\n        \n        .similar-app-title \x7b\n            font-size: 0.9em;\n            color: ",
    (if t.dark_mode then
      strConcat [
        "#ccc"]
    else
      strConcat [
        "#333"]),
    ";\n            margin-bottom: 5px;\n            overflow: hidden;\n            text-overflow: ellipsis;\n            display: -webkit-box;\n            -we",
    "bkit-line-clamp: 2;\n            -webkit-box-orient: vertical;\n        \x7d\n        \n        .similar-app-rating \x7b\n            font-size: 0.8em;\n         ",
    "   color: ",
    (if t.dark_mode then
      strConcat [
        "#888"]
    else
      strConcat [
        "#666"]),
    ";\n        \x7d\n        \n        .additional-info \x7b\n            background: ",
    (if t.dark_mode then
      strConcat [
        "#1e1e1e"]
    else
      strConcat [
        "white"]),
    ";\n            padding: 30px;\n            border-radius: var(--border-radius);\n            margin-bottom: var(--section-spacing);\n            box-shado",
    "w: 0 5px 20px rgba(0,0,0,calc(var(--shadow-intensity)));\n        \x7d\n        \n        .additional-info h2 \x7b\n            color: var(--primary-color);\n   ",
    "         margin-bottom: 20px;\n            font-weight: ",
    (t.heading_weight),
    ";\n        \x7d\n        \n        .info-grid \x7b\n            display: grid;\n            grid-template-columns: repeat(auto-fit, minmax(200px, 1fr));\n        ",
    "    gap: 20px;\n        \x7d\n        \n        .info-item \x7b\n            padding: 15px;\n            background: ",
    (if t.dark_mode then
      strConcat [
        "#2a2a2a"]
    else
      strConcat [
        "#f8f9fa"]),
    ";\n            border-radius: 10px;\n        \x7d\n        \n        .info-item-label \x7b\n            font-size: 0.9em;\n            color: ",
    (if t.dark_mode then
      strConcat [
        "#888"]
    else
      strConcat [
        "#666"]),
    ";\n            margin-bottom: 5px;\n        \x7d\n        \n        .info-item-value \x7b\n            font-weight: 600;\n            color: ",
    (if t.dark_mode then
      strConcat [
        "#ddd"]
    else
      strConcat [
        "#333"]),
    ";\n        \x7d\n        \n        .badges \x7b\n            display: flex;\n            gap: 10px;\n            flex-wrap: wrap;\n            margin-top: 10px;\n  ",
    "      \x7d\n        \n        .badge \x7b\n            display: inline-block;\n            padding: 5px 12px;\n            background: var(--primary-color);\n    ",
    "        color: white;\n            border-radius: 20px;\n            font-size: 0.85em;\n            font-weight: 600;\n        \x7d\n        \n        .badge.",
    "warning \x7b\n            background: #ff9800;\n        \x7d\n        \n        footer \x7b\n            background: ",
    (if t.dark_mode then
      strConcat [
        "#0a0a0a"]
    else
      strConcat [
        "#2c3e50"]),
    ";\n            color: ",
    (if t.dark_mode then
      strConcat [
        "#ccc"]
    else
      strConcat [
        "white"]),
    ";\n            padding: 40px 0;\n            margin-top: 60px;\n        \x7d\n        \n        .footer-content \x7b\n            max-width: 1200px;\n            m",
    "argin: 0 auto;\n            padding: 0 20px;\n            text-align: center;\n        \x7d\n        \n        .footer-links \x7b\n            margin-bottom: 20px",
    ";\n        \x7d\n        \n        .footer-links a \x7b\n            color: ",
    (if t.dark_mode then
      strConcat [
        "#aaa"]
    else
      strConcat [
        "#ecf0f1"]),
    ";\n            text-decoration: none;\n            margin: 0 15px;\n            transition: color 0.3s;\n        \x7d\n        \n        .footer-links a:hover ",
    "\x7b\n            color: var(--primary-color);\n        \x7d\n        \n        .footer-copyright \x7b\n            color: ",
    (if t.dark_mode then
      strConcat [
        "#777"]
    else
      strConcat [
        "#95a5a6"]),
    ";\n            font-size: 0.9em;\n            margin-top: 20px;\n        \x7d\n        \n        @media (max-width: 768px) \x7b\n            .app-header \x7b\n       ",
    "         flex-direction: column;\n                text-align: center;\n            \x7d\n            .app-info h1 \x7b\n                font-size: 2em;\n        ",
    "    \x7d\n            .stats \x7b\n                justify-content: center;\n            \x7d\n            ",
    (if (t.screenshot_layout = "masonry") then
      strConcat [
        "\n            .screenshot-grid \x7b\n                columns: 2;\n            \x7d\n            "]
    else ""),
    "\n            .similar-apps-grid \x7b\n                grid-template-columns: repeat(auto-fill, minmax(100px, 1fr));\n            \x7d\n        \x7d\n        \n     ",
    "   @media (max-width: 480px) \x7b\n            ",
    (if (t.screenshot_layout = "masonry") then
      strConcat [
        "\n            .screenshot-grid \x7b\n                columns: 1;\n            \x7d\n            "]
    else ""),
    "\n            .similar-apps-grid \x7b\n                grid-template-columns: repeat(auto-fill, minmax(80px, 1fr));\n            \x7d\n        \x7d\n    </style>\n</",
    "head>\n<body>\n    <div class=\"container\">\n        <div class=\"hero\">\n            <div class=\"app-header\">\n                ",
    (if optTruthy t.icon then
      strConcat [
        "\n                <img src=\"",
        ((t.icon.getD "")),
        "\" alt=\"",
        (t.title),
        "\" class=\"app-icon\">\n                "]
    else ""),
    "\n                <div class=\"app-info\">\n                    <h1>",
    (t.title),
    "</h1>\n                    <div class=\"developer\">",
    (t.developer),
    "</div>\n                    <div class=\"stats\">\n                        <div class=\"stat\">\n                            <span class=\"stat-label\">Rating:",
    "</span>\n                            <span class=\"stat-value\">⭐ ",
    (showRating t.rating),
    "</span>\n                        </div>\n                        <div class=\"stat\">\n                            <span class=\"stat-label\">Downloads:</spa",
    "n>\n                            <span class=\"stat-value\">",
    (t.installs),
    "</span>\n                        </div>\n                        <div class=\"stat\">\n                            <span class=\"stat-label\">Reviews:</span>",
    "\n                            <span class=\"stat-value\">",
    (toString t.ratings_count),
    "</span>\n                        </div>\n                    </div>\n                    \n                    <div class=\"app-meta\">\n                    ",
    "    ",
    (if (t.size ≠ "") then
      strConcat [
        "\n                        <div class=\"meta-item\">\n                            <span class=\"meta-label\">Size</span>\n                            <span cl",
        "ass=\"meta-value\">",
        (t.size),
        "</span>\n                        </div>\n                        "]
    else ""),
    "\n                        ",
    (if (t.version ≠ "") then
      strConcat [
        "\n                        <div class=\"meta-item\">\n                            <span class=\"meta-label\">Version</span>\n                            <span",
        " class=\"meta-value\">",
        (t.version),
        "</span>\n                        </div>\n                        "]
    else ""),
    "\n                        ",
    (if (t.updated ≠ "") then
      strConcat [
        "\n                        <div class=\"meta-item\">\n                            <span class=\"meta-label\">Updated</span>\n                            <span",
        " class=\"meta-value\">",
        (t.updated),
        "</span>\n                        </div>\n                        "]
    else ""),
    "\n                        ",
    (if (t.android_version ≠ "") then
      strConcat [
        "\n                        <div class=\"meta-item\">\n                            <span class=\"meta-label\">Requires</span>\n                            <spa",
        "n class=\"meta-value\">Android ",
        (t.android_version),
        "+</span>\n                        </div>\n                        "]
    else ""),
    "\n                        ",
    (if (t.content_rating ≠ "") then
      strConcat [
        "\n                        <div class=\"meta-item\">\n                            <span class=\"meta-label\">Content Rating</span>\n                          ",
        "  <span class=\"meta-value\">",
        (t.content_rating),
        "</span>\n                        </div>\n                        "]
    else ""),
    "\n                    </div>\n                    \n                    <div class=\"badges\">\n                        ",
    (if t.contains_ads then
      strConcat [
        "\n                        <span class=\"badge warning\">Contains Ads</span>\n                        "]
    else ""),
    "\n                        ",
    (if t.in_app_purchases then
      strConcat [
        "\n                        <span class=\"badge warning\">In-app purchases</span>\n                        "]
    else ""),
    "\n                        ",
    (if t.free then
      strConcat [
        "\n                        <span class=\"badge\">Free</span>\n                        "]
    else ""),
    "\n                    </div>\n                </div>\n            </div>\n            \n            <a href=\"https://play.google.com/store/apps/details?id=",
    (t.package_name),
    "\" \n               class=\"download-button\" target=\"_blank\">\n                Download on Google Play\n            </a>\n        </div>\n        \n        ",
    (strConcat (t.sections_order.map fun sect =>
      strConcat [
        "\n            ",
        (if (sect = "description" ∧ t.description ≠ "") then
          strConcat [
            "\n            <div class=\"description\">\n                <h2>About this app</h2>\n                ",
            (if (t.summary ≠ "") then
              strConcat [
                "\n                <div style=\"font-weight: 600; margin-bottom: 15px; color: var(--primary-color);\">\n                    ",
                (t.summary),
                "\n                </div>\n                "]
            else ""),
            "\n                <div class=\"description-text\">\n                    <span class=\"description-short\">",
            ((t.description.take 500)),
            (if (500 < t.description.length) then
              strConcat [
                "..."]
            else ""),
            "</span>\n                    ",
            (if (500 < t.description.length) then
              strConcat [
                "\n                    <span class=\"description-full\">",
                (t.description),
                "</span>\n                    <a href=\"#\" class=\"read-more-btn\" onclick=\"toggleDescription(event)\">Read more</a>\n                    "]
            else ""),
            "\n                </div>\n            </div>\n            "]
        else ""),
        "\n            \n            ",
        (if (sect = "video" ∧ optTruthy t.video) then
          strConcat [
            "\n            <div class=\"video-section\">\n                <h2>Preview Video</h2>\n                <div class=\"video-wrapper\">\n                    <ifram",
            "e src=\"",
            ((t.video.getD "")),
            "\" \n                            allow=\"accelerometer; autoplay; clipboard-write; encrypted-media; gyroscope; picture-in-picture\" \n                     ",
            "       allowfullscreen>\n                    </iframe>\n                </div>\n            </div>\n            "]
        else ""),
        "\n            \n            ",
        (if (sect = "screenshots" ∧ t.screenshots ≠ []) then
          strConcat [
            "\n            <div class=\"screenshots\">\n                <h2>Screenshots</h2>\n                <div class=\"screenshot-grid\">\n                    ",
            (strConcat ((List.enum t.screenshots).map fun p =>
              let idx := p.1
              let scr := p.2
              strConcat [
                "\n                    <div class=\"screenshot\">\n                        <img src=\"",
                (scr),
                "\" alt=\"Screenshot ",
                (toString (idx + 1)),
                "\" loading=\"lazy\">\n                    </div>\n                    "])),
            "\n                </div>\n            </div>\n            "]
        else ""),
        "\n        "])),
    "\n        \n        ",
    (if (t.similar_apps ≠ []) then
      strConcat [
        "\n        <div class=\"similar-apps\">\n            <h2>Similar Apps</h2>\n            <div class=\"similar-apps-grid\">\n                ",
        (strConcat (t.similar_apps.map fun app =>
          strConcat [
            "\n                <div class=\"similar-app\">\n                    ",
            (if optTruthy app.icon_local then
              strConcat [
                "\n                    <img src=\"",
                ((app.icon_local.getD "")),
                "\" alt=\"",
                (app.title),
                "\" class=\"similar-app-icon\">\n                    "]
            else ""),
            "\n                    <div class=\"similar-app-title\">",
            (app.title),
            "</div>\n                    ",
            (if ratingTruthy app.rating then
              strConcat [
                "\n                    <div class=\"similar-app-rating\">⭐ ",
                (showRating app.rating),
                "</div>\n                    "]
            else ""),
            "\n                </div>\n                "])),
        "\n            </div>\n        </div>\n        "]
    else ""),
    "\n        \n        ",
    (if (t.recent_changes ≠ "" ∨ t.developer_website ≠ "" ∨ t.developer_email ≠ "") then
      strConcat [
        "\n        <div class=\"additional-info\">\n            <h2>Additional Information</h2>\n            <div class=\"info-grid\">\n                ",
        (if (t.category ≠ "") then
          strConcat [
            "\n                <div class=\"info-item\">\n                    <div class=\"info-item-label\">Category</div>\n                    <div class=\"info-item-val",
            "ue\">",
            (t.category),
            "</div>\n                </div>\n                "]
        else ""),
        "\n                ",
        (if (t.developer_website ≠ "") then
          strConcat [
            "\n                <div class=\"info-item\">\n                    <div class=\"info-item-label\">Developer Website</div>\n                    <div class=\"info",
            "-item-value\">\n                        <a href=\"",
            (t.developer_website),
            "\" target=\"_blank\" style=\"color: var(--primary-color);\">\n                            Visit Website\n                        </a>\n                    </d",
            "iv>\n                </div>\n                "]
        else ""),
        "\n                ",
        (if (t.developer_email ≠ "") then
          strConcat [
            "\n                <div class=\"info-item\">\n                    <div class=\"info-item-label\">Developer Email</div>\n                    <div class=\"info-i",
            "tem-value\">",
            (t.developer_email),
            "</div>\n                </div>\n                "]
        else ""),
        "\n                ",
        (if (1000000 < t.installs_raw) then
          strConcat [
            "\n                <div class=\"info-item\">\n                    <div class=\"info-item-label\">Popularity</div>\n                    <div class=\"info-item-v",
            "alue\">Top Rated App</div>\n                </div>\n                "]
        else ""),
        "\n            </div>\n            \n            ",
        (if (t.recent_changes ≠ "") then
          strConcat [
            "\n            <div style=\"margin-top: 30px;\">\n                <h3 style=\"color: var(--primary-color); margin-bottom: 15px;\">What\x27s New</h3>\n           ",
            "     <div style=\"white-space: pre-wrap; color: ",
            (if t.dark_mode then
              strConcat [
                "#ccc"]
            else
              strConcat [
                "#555"]),
            ";\">",
            (t.recent_changes),
            "</div>\n            </div>\n            "]
        else ""),
        "\n        </div>\n        "]
    else ""),
    "\n    </div>\n    \n    <footer>\n        <div class=\"footer-content\">\n            <div class=\"footer-links\">\n                <a href=\"/landing/",
    (t.landing_id),
    "/privacy.html\">Privacy Policy</a>\n                <a href=\"/landing/",
    (t.landing_id),
    "/terms.html\">Terms of Service</a>\n                <a href=\"#\" class=\"contact-link\">Contact Us</a>\n            </div>\n            <div class=\"footer-co",
    "pyright\">\n                © 2024 <span class=\"domain-text\">example.com</span>. All rights reserved.<br>\n                ",
    (t.title),
    " is a trademark of ",
    (t.developer),
    ".\n            </div>\n        </div>\n    </footer>\n    \n    <script>\n    // Динамическое определение домена\n    (function() \x7b\n        var domain = wind",
    "ow.location.hostname;\n        \n        // Убираем www. если есть\n        if (domain.startsWith(\x27www.\x27)) \x7b\n            domain = domain.substring(4);\n  ",
    "      \x7d\n        \n        // Обновляем email ссылку\n        var contactLink = document.querySelector(\x27.contact-link\x27);\n        if (contactLink) \x7b\n     ",
    "       contactLink.href = \x27mailto:mail@\x27 + domain;\n            contactLink.textContent = \x27Contact Us\x27;\n        \x7d\n        \n        // Обновляем текст д",
    "омена в копирайте\n        var domainText = document.querySelector(\x27.domain-text\x27);\n        if (domainText) \x7b\n            domainText.textContent = doma",
    "in;\n        \x7d\n    \x7d)();\n    \n    // Функция для раскрытия описания\n    function toggleDescription(e) \x7b\n        e.preventDefault();\n        var shortDe",
    "sc = document.querySelector(\x27.description-short\x27);\n        var fullDesc = document.querySelector(\x27.description-full\x27);\n        var btn = e.target;\n   ",
    "     \n        if (fullDesc.classList.contains(\x27show\x27)) \x7b\n            fullDesc.classList.remove(\x27show\x27);\n            shortDesc.style.display = \x27inline\x27",
    ";\n            btn.textContent = \x27Read more\x27;\n        \x7d else \x7b\n            fullDesc.classList.add(\x27show\x27);\n            shortDesc.style.display = \x27none\x27",
    ";\n            btn.textContent = \x27Read less\x27;\n        \x7d\n    \x7d\n    </script>\n</body>\n</html>"]

/-- Embedding of `generate_html`: draw the randomization parameters from
the global random stream, merge, rewrite image paths, render. -/
def generate_html (app_data : ProcessedData) (landing_id : String) (g : RStream) :
    String :=
  renderLanding (templateDataOf app_data (generate_randomization_params g) landing_id)

/-! ## Landing IDs -/

/-- `n` rendered as exactly `k` lowercase hex digits. -/
def hexFixed (k n : Nat) : String :=
  String.mk ((List.range k).map fun i => hexChar (n / 16 ^ (k - 1 - i) % 16))

/-- A short hex digest of a string (12 hex digits). -/
def shortHash (s : String) : String :=
  hexFixed 12 (s.toList.foldl (fun a c => (a * 131 + c.toNat) % 16 ^ 12) 7)

/-- Modelled from the spec: the landing-ID generator is part of the Flask
route code that src/app.py elides ("Остальные функции остаются без
изменений…"), so it is reconstructed from the spec's words: "a hash of
inputs plus a timestamp plus a random suffix", yielding a "short
hash-derived token identifying one generated artifact set". -/
def generate_landing_id (package_name : String) (timestamp : Nat)
    (rand_suffix : Nat) : String :=
  shortHash (package_name ++ toString timestamp ++ toString rand_suffix)

/-! ## Shape predicates and shared test fixtures -/

/-- `s` has the shape `#rrggbb`: a `#` followed by six hex digits. -/
def isHexColorB (s : String) : Bool :=
  match s.toList with
  | '#' :: rest => rest.length = 6 && rest.all fun c => (hexDigitVal c).isSome
  | _ => false

/-- A scraper record with every optional field absent (used to instantiate
theorems on concrete inputs). -/
def emptyRecord : Record :=
  { title := none, developer := none, descriptionHTML := none, description := none
    summary := none, score := none, ratings := none, minInstalls := none
    genre := none, genreId := none, contentRating := none, price := none
    free := none, updated := none, version := none, size := .pnone
    androidVersion := none, developerEmail := none, developerWebsite := none
    developerAddress := none, recentChanges := none, containsAds := none
    offersIAP := none, icon := none, headerImage := none, screenshots := none
    video := none, comments := none }

/-- The empty filesystem. -/
def emptyFS : FS := ⟨fun _ => none⟩

/-- A deterministic random stream (all draws zero). -/
def zeroStream : RStream := ⟨fun _ => 0, fun _ => 0⟩

/-- An oracle set where every external call fails. -/
def failingOracles : Oracles :=
  { http := fun _ => none, search := fun _ _ => none, palette := fun _ => none
    rand := zeroStream }

/-- A fully-defaulted processed record (what `processAppData` produces from
`emptyRecord` with failing oracles), used to instantiate theorems on a
concrete input. -/
def sampleProcessed : ProcessedData :=
  { title := "Unknown App", developer := "Unknown Developer", description := ""
    summary := "", rating := none, ratings_count := 0, installs := "0"
    installs_raw := 0, package_name := "", language := ""
    colors := default_colors, icon := none, cover := none, screenshots := []
    video := none, category := "", category_id := "", content_rating := ""
    price := 0, free := true, updated := "", version := "", size := "Varies"
    android_version := "", developer_email := "", developer_website := ""
    developer_address := "", similar_apps := [], reviews := []
    recent_changes := "", contains_ads := false, in_app_purchases := false }

/-- A record that only carries one screenshot URL (used to instantiate
theorems on a concrete input). -/
def demoRecord : Record :=
  { emptyRecord with screenshots := some ["http://img/0.jpg"] }

/-- Oracles whose HTTP fetches succeed with a one-byte body and whose
other calls fail. -/
def demoOracles : Oracles :=
  { failingOracles with http := fun _ => some [1] }

/-! # Theorems -/

/-! ## Helper lemmas -/

theorem hexDigitVal_hexChar (n : Nat) : (hexDigitVal (hexChar n)).isSome = true := by
  by_cases h : n < 16
  · interval_cases n <;> decide
  · have h16 : hexDigitChars.length ≤ n := by
      simp only [hexDigitChars, List.length]
      omega
    rw [hexChar, List.getD_eq_default _ _ h16]
    decide

/-! ## C2 — the download step is idempotent -/

/-- C2: for every url and save_path, if a file already exists at
`save_path` then `download_image` returns `True` without performing an
HTTP request or a write, leaving the filesystem unchanged; and after any
successful call, a second identical call again returns `True` and changes
nothing. -/
theorem c2_download_image_cached (http : String → Option (List Nat)) (fs : FS)
    (url save_path : String) :
    (∀ content, fs.files save_path = some content →
        download_image http fs url save_path =
          { ok := true, fs := fs, requested := false, wrote := false }) ∧
    ((download_image http fs url save_path).ok = true →
        download_image http (download_image http fs url save_path).fs url save_path =
          { ok := true, fs := (download_image http fs url save_path).fs,
            requested := false, wrote := false }) := by
  constructor
  · intro content hc
    simp [download_image, hc]
  · intro hok
    by_cases h : (fs.files save_path).isSome
    · simp [download_image, h]
    · cases hh : http url with
      | none => simp [download_image, h, hh] at hok
      | some content => simp [download_image, h, hh]

/-- Witness for C2 at a concrete filesystem that already holds the file. -/
theorem c2_download_image_cached_witness :
    (FS.files ⟨fun p => if p = "/app/static/images/x/icon.png" then some [7] else none⟩
        "/app/static/images/x/icon.png" = some [7]) ∧
    download_image (fun _ => none)
        ⟨fun p => if p = "/app/static/images/x/icon.png" then some [7] else none⟩
        "http://e/i.png" "/app/static/images/x/icon.png" =
      { ok := true
        fs := ⟨fun p => if p = "/app/static/images/x/icon.png" then some [7] else none⟩
        requested := false, wrote := false } :=
  ⟨by simp, (c2_download_image_cached _ _ _ _).1 [7] (by simp)⟩

/-! ## C9 — `format_installs` -/

/-- C9: for every non-negative integer, `format_installs` returns the
decimal string below `1000`, the value divided by `1000` (resp. `10^6`,
`10^9`) rounded to the nearest integer (half to even) with suffix `K+`
(resp. `M+`, `B+`) in the three magnitude bands, and `"0+"` on a
non-numeric argument (where Python's `>=` comparison raises). -/
theorem c9_format_installs (n : ℕ) :
    (n < 1000 → format_installs (.pint n) = toString (n : ℤ)) ∧
    (1000 ≤ n → n < 1000000 →
      format_installs (.pint n) = toString (roundHalfEven ((n : ℚ) / 1000)) ++ "K+") ∧
    (1000000 ≤ n → n < 1000000000 →
      format_installs (.pint n) = toString (roundHalfEven ((n : ℚ) / 1000000)) ++ "M+") ∧
    (1000000000 ≤ n →
      format_installs (.pint n) = toString (roundHalfEven ((n : ℚ) / 1000000000)) ++ "B+") ∧
    (∀ s, format_installs (.pstr s) = "0+") ∧ format_installs .pnone = "0+" := by
  refine ⟨?_, ?_, ?_, ?_, fun s => rfl, rfl⟩
  · intro h
    simp only [format_installs]
    rw [if_neg (by exact_mod_cast by omega), if_neg (by exact_mod_cast by omega),
      if_neg (by exact_mod_cast by omega)]
  · intro h1 h2
    simp only [format_installs]
    rw [if_neg (by exact_mod_cast by omega), if_neg (by exact_mod_cast by omega),
      if_pos (by exact_mod_cast h1)]
    rfl
  · intro h1 h2
    simp only [format_installs]
    rw [if_neg (by exact_mod_cast by omega), if_pos (by exact_mod_cast h1)]
    rfl
  · intro h1
    simp only [format_installs]
    rw [if_pos (by exact_mod_cast h1)]
    rfl

/-- Witness for C9 in the `K+` band (`1500` rounds half-to-even to `2`). -/
theorem c9_format_installs_witness :
    1000 ≤ 1500 ∧ 1500 < 1000000 ∧
    format_installs (.pint 1500) = toString (roundHalfEven ((1500 : ℚ) / 1000)) ++ "K+" :=
  ⟨by norm_num, by norm_num, (c9_format_installs 1500).2.1 (by norm_num) (by norm_num)⟩

/-! ## C8 — landing IDs (spec-modelled) -/

/-- C8: every landing ID is a short (12 hex characters) hash-derived token
computed from the package name, the timestamp and the random suffix.
The generator itself is not in src/app.py; `generate_landing_id` is
modelled from the spec. -/
theorem c8_landing_id_short_hash (package_name : String) (timestamp rand_suffix : Nat) :
    (generate_landing_id package_name timestamp rand_suffix).length = 12 ∧
    ((generate_landing_id package_name timestamp rand_suffix).toList.all
        fun c => (hexDigitVal c).isSome) = true ∧
    generate_landing_id package_name timestamp rand_suffix =
      shortHash (package_name ++ toString timestamp ++ toString rand_suffix) := by
  refine ⟨?_, ?_, rfl⟩
  · simp [generate_landing_id, shortHash, hexFixed, String.length]
  · rw [List.all_eq_true]
    intro c hc
    simp only [generate_landing_id, shortHash, hexFixed, String.toList, String.mk] at hc
    obtain ⟨i, _, rfl⟩ := List.mem_map.1 hc
    exact hexDigitVal_hexChar _

/-! ## C4 — palette extracted exactly after a successful icon download -/

/-- C4: `processed_data['colors']` is `extract_dominant_colors(icon_path)`
exactly when the scraper record carries a truthy icon URL and
`download_image` for it returns `True`; in every other case the colors
stay the default `['#4285f4', '#34a853', '#fbbc04']`. -/
theorem c4_palette_after_download (package_name language : String) (r : Record)
    (fs : FS) (o : Oracles) :
    (processAppData package_name language r fs o).1.colors =
      if r.icon.getD "" ≠ "" ∧
          (download_image o.http fs (r.icon.getD "")
            (app_images_dir package_name ++ "/" ++ "icon.png")).ok = true then
        extract_dominant_colors
          (o.palette (app_images_dir package_name ++ "/" ++ "icon.png")) o.rand
      else default_colors := by
  by_cases h1 : r.icon.getD "" ≠ ""
  · by_cases h2 : (download_image o.http fs (r.icon.getD "")
        (app_images_dir package_name ++ "/" ++ "icon.png")).ok = true
    · simp [processAppData, iconStep, h1, h2]
    · simp [processAppData, iconStep, h1, h2]
  · simp [processAppData, iconStep, h1]

/-! ## C7 — light reformatting of the scraper record -/

/-- C7: `process_app_data` passes the fetched record through with light
reformatting: `title` defaults to `'Unknown App'` and `developer` to
`'Unknown Developer'` when absent, `rating` is the score rounded to one
decimal (the int `0`, modelled `none`, when the score is missing or
falsy), `installs` is `format_installs` of `minInstalls` while
`installs_raw` keeps the raw value, `size` is `format_size` of the size
field, and the description is the tag-stripped chosen description. -/
theorem c7_light_reformatting (package_name language : String) (r : Record)
    (fs : FS) (o : Oracles) :
    ((processAppData package_name language r fs o).1.title =
        r.title.getD "Unknown App") ∧
    ((processAppData package_name language r fs o).1.developer =
        r.developer.getD "Unknown Developer") ∧
    ((processAppData package_name language r fs o).1.rating =
        match r.score with
        | none => none
        | some q => if q = 0 then none else some (round1 q)) ∧
    ((processAppData package_name language r fs o).1.installs =
        format_installs (.pint (r.minInstalls.getD 0))) ∧
    ((processAppData package_name language r fs o).1.installs_raw =
        r.minInstalls.getD 0) ∧
    ((processAppData package_name language r fs o).1.size = format_size r.size) ∧
    ((processAppData package_name language r fs o).1.description =
        stripTags (if r.descriptionHTML.getD "" ≠ "" then r.descriptionHTML.getD ""
                   else r.description.getD "")) :=
  ⟨rfl, rfl, rfl, rfl, rfl, rfl, rfl⟩

/-! ## C5 — `sections_order` is a permutation -/

theorem pySample3_perm (n0 n1 : Nat) :
    (pySample3 ["description", "video", "screenshots"] n0 n1).Perm
      ["description", "video", "screenshots"] := by
  have h3 : n0 % 3 = 0 ∨ n0 % 3 = 1 ∨ n0 % 3 = 2 := by omega
  have h2 : n1 % 2 = 0 ∨ n1 % 2 = 1 := by omega
  rcases h3 with h | h | h <;> rcases h2 with h' | h' <;>
    simp [pySample3, h, h'] <;> decide

/-- C5: `generate_randomization_params` always returns a `sections_order`
that is a permutation of `['description', 'video', 'screenshots']`, so the
template's section loop emits each section at most once; the `except`
fallback's `sections_order` is the identity order. -/
theorem c5_sections_order_perm (g : RStream) (d : ProcessedData) (lid sec : String) :
    (generate_randomization_params g).sections_order.Perm
      ["description", "video", "screenshots"] ∧
    (emittedSections (templateDataOf d (generate_randomization_params g) lid)).count sec
      ≤ 1 ∧
    fallback_randomization_params.sections_order =
      ["description", "video", "screenshots"] := by
  have hperm : (generate_randomization_params g).sections_order.Perm
      ["description", "video", "screenshots"] := pySample3_perm _ _
  refine ⟨hperm, ?_, rfl⟩
  have hnodup : (generate_randomization_params g).sections_order.Nodup :=
    hperm.symm.nodup (by decide)
  have hfilter :
      (emittedSections (templateDataOf d (generate_randomization_params g) lid)).Nodup :=
    List.Nodup.filter _ hnodup
  exact List.nodup_iff_count_le_one.1 hfilter sec

/-! ## C6 — rendering is randomized, not a function of the arguments -/

set_option maxRecDepth 100000 in
/-- C6 counterexample: two `generate_html` calls with identical
`app_data` and `landing_id` but different states of the global random
stream (the two streams differ only in the `dark_mode` draw) produce
different HTML strings, so the output does not depend on the arguments
alone. -/
theorem c6_counterexample :
    generate_html sampleProcessed "x" zeroStream ≠
      generate_html sampleProcessed "x" ⟨fun i => if i = 14 then 3 else 0, fun _ => 0⟩ := by
  have h : (generate_html sampleProcessed "x" zeroStream ==
      generate_html sampleProcessed "x"
        ⟨fun i => if i = 14 then 3 else 0, fun _ => 0⟩) = false := by
    with_unfolding_all rfl
  exact ne_of_beq_false h

/-- C6 (amended): rendering is a single-pass transformation that is
deterministic given the sampled randomization parameters — two
`generate_html` calls with equal arguments that draw equal randomization
parameters produce identical HTML strings.  (The claim as stated fails:
the output also depends on the global random stream, see the
counterexample.) -/
theorem c6_deterministic_given_params (d : ProcessedData) (lid : String)
    (g1 g2 : RStream)
    (h : generate_randomization_params g1 = generate_randomization_params g2) :
    generate_html d lid g1 = generate_html d lid g2 := by
  unfold generate_html
  rw [h]

/-- Witness for the amended C6 at a concrete record and stream. -/
theorem c6_deterministic_given_params_witness :
    (generate_randomization_params zeroStream =
      generate_randomization_params zeroStream) ∧
    generate_html sampleProcessed "w" zeroStream =
      generate_html sampleProcessed "w" zeroStream :=
  ⟨rfl, c6_deterministic_given_params _ _ _ _ rfl⟩

/-! ## C10 — `get_similar_apps` -/

/-- C10 counterexample: with an empty requested package name and a search
entry that lacks an `appId`, the comparison `app.get('appId') !=
package_name` (`None != ''`) passes but the entry is stored with
`package_name = ''`, which equals the requested package — the claim as
stated is false. -/
theorem c10_counterexample :
    ¬ (∀ e ∈ get_similar_apps "" (some "d") none
          (fun q n => if q = "d" ∧ n = 5 then
            some [{ appId := none, title := none, icon := none, score := none }]
          else none) 8,
        e.package_name ≠ "") := by
  intro h
  exact h { title := "", icon := "", package_name := "", rating := none, icon_local := none }
    (by decide) rfl

theorem catLoop_package_ne (pkg : String) (m : Nat) :
    ∀ (l : List SearchEntry) (s : List SimilarApp), (∀ a ∈ l, a.appId.isSome) →
      (∀ e ∈ s, e.package_name ≠ pkg) →
      ∀ e ∈ catLoop pkg m s l, e.package_name ≠ pkg := by
  intro l
  induction l with
  | nil => intro s _ hs e he; exact hs e he
  | cons a rest ih =>
    intro s hl hs e he
    have ha : a.appId.isSome := hl a (List.mem_cons_self a rest)
    obtain ⟨x, hx⟩ := Option.isSome_iff_exists.1 ha
    have hsx : ∀ e ∈ s ++ [mkSimilar a],
        (appIdDiffers a pkg = true) → e.package_name ≠ pkg := by
      intro e he hdif
      rcases List.mem_append.1 he with h1 | h1
      · exact hs e h1
      · have : e = mkSimilar a := List.mem_singleton.1 h1
        subst this
        simp only [mkSimilar, hx, Option.getD_some]
        simp only [appIdDiffers, hx] at hdif
        simpa using hdif
    simp only [catLoop] at he
    split at he
    · next hcond =>
      split at he
      · exact hsx e he hcond.1
      · exact ih (s ++ [mkSimilar a]) (fun a' ha' => hl a' (List.mem_cons_of_mem _ ha'))
          (fun e' he' => hsx e' he' hcond.1) e he
    · exact ih s (fun a' ha' => hl a' (List.mem_cons_of_mem _ ha')) hs e he

theorem catLoop_new_names (pkg : String) (m : Nat) :
    ∀ (l : List SearchEntry) (s0 s : List SimilarApp), (∀ a ∈ l, a.appId.isSome) →
      (s0.map SimilarApp.package_name ⊆ s.map SimilarApp.package_name) →
      (∀ e ∈ s, e ∈ s ∨ e.package_name ∉ s0.map SimilarApp.package_name) →
      ∀ e ∈ catLoop pkg m s l,
        e ∈ s ∨ e.package_name ∉ s0.map SimilarApp.package_name := by
  intro l
  induction l with
  | nil => intro s0 s _ _ _ e he; exact Or.inl he
  | cons a rest ih =>
    intro s0 s hl hsub _ e he
    have ha : a.appId.isSome := hl a (List.mem_cons_self a rest)
    obtain ⟨x, hx⟩ := Option.isSome_iff_exists.1 ha
    simp only [catLoop] at he
    split at he
    · next hcond =>
      have hnew : (mkSimilar a).package_name ∉ s.map SimilarApp.package_name := by
        intro hmem
        obtain ⟨e', he', heq⟩ := List.mem_map.1 hmem
        have : alreadyCollected s a = true := by
          simp only [alreadyCollected, List.any_eq_true]
          refine ⟨e', he', ?_⟩
          simp only [hx]
          simp only [mkSimilar, hx, Option.getD_some] at heq
          simp [heq]
        exact hcond.2 this
      have hmemext : ∀ e' ∈ s ++ [mkSimilar a],
          e' ∈ s ∨ e'.package_name ∉ s0.map SimilarApp.package_name := by
        intro e' he'
        rcases List.mem_append.1 he' with h1 | h1
        · exact Or.inl h1
        · have : e' = mkSimilar a := List.mem_singleton.1 h1
          subst this
          exact Or.inr fun hmem => hnew (hsub hmem)
      split at he
      · exact hmemext e he
      · have := ih s0 (s ++ [mkSimilar a])
          (fun a' ha' => hl a' (List.mem_cons_of_mem _ ha'))
          (hsub.trans (by simp [List.map_append]))
          (fun e' he' => Or.inl he') e he
        rcases this with h1 | h1
        · exact hmemext e h1
        · exact Or.inr h1
    · exact ih s0 s (fun a' ha' => hl a' (List.mem_cons_of_mem _ ha')) hsub
        (fun e' he' => Or.inl he') e he

theorem devPassApps_package_ne (pkg : String) (developer : Option String)
    (search : String → Nat → Option (List SearchEntry))
    (hwf : ∀ q n l, search q n = some l → ∀ a ∈ l, a.appId.isSome) :
    ∀ e ∈ devPassApps pkg developer search, e.package_name ≠ pkg := by
  intro e he
  simp only [devPassApps] at he
  split at he
  · split at he
    · simp at he
    · next l hl =>
      obtain ⟨a, ha, rfl⟩ := List.mem_map.1 he
      have hfil := List.mem_filter.1 ha
      obtain ⟨x, hx⟩ := Option.isSome_iff_exists.1 (hwf _ _ _ hl a hfil.1)
      have hdif := hfil.2
      simp only [appIdDiffers, hx] at hdif
      simp only [mkSimilar, hx, Option.getD_some]
      simpa using hdif
  · simp at he

/-- C10 (amended): assuming every search-result entry carries an `appId`
(entries without one are stored with an empty package name, which
collides with an empty requested package — see the counterexample),
`get_similar_apps` returns at most `max_apps` entries, none of them named
like the requested package, and every entry added by the category pass
has a package name distinct from all names collected in the developer
pass. -/
theorem c10_similar_apps (package_name : String) (developer category : Option String)
    (search : String → Nat → Option (List SearchEntry)) (max_apps : Nat)
    (hwf : ∀ q n l, search q n = some l → ∀ a ∈ l, a.appId.isSome) :
    (get_similar_apps package_name developer category search max_apps).length
      ≤ max_apps ∧
    (∀ e ∈ get_similar_apps package_name developer category search max_apps,
        e.package_name ≠ package_name) ∧
    (∀ e ∈ get_similar_apps package_name developer category search max_apps,
        e ∈ devPassApps package_name developer search ∨
          e.package_name ∉
            (devPassApps package_name developer search).map SimilarApp.package_name) := by
  refine ⟨?_, ?_, ?_⟩
  · simp only [get_similar_apps]
    exact List.length_take_le _ _
  · intro e he
    simp only [get_similar_apps] at he
    have he' := List.take_subset _ _ he
    split at he'
    · split at he'
      · exact devPassApps_package_ne package_name developer search hwf e he'
      · next l hl =>
        exact catLoop_package_ne package_name max_apps l _ (hwf _ _ _ hl)
          (devPassApps_package_ne package_name developer search hwf) e he'
    · exact devPassApps_package_ne package_name developer search hwf e he'
  · intro e he
    simp only [get_similar_apps] at he
    have he' := List.take_subset _ _ he
    split at he'
    · split at he'
      · exact Or.inl he'
      · next l hl =>
        exact catLoop_new_names package_name max_apps l
          (devPassApps package_name developer search)
          (devPassApps package_name developer search)
          (hwf _ _ _ hl) (fun x hx => hx) (fun e' he' => Or.inl he') e he'
    · exact Or.inl he'

/-- Witness for the amended C10 at a concrete search oracle whose single
entry carries an `appId`. -/
theorem c10_similar_apps_witness :
    (∀ q n l, (fun q n => if q = "d" ∧ n = 5 then
        some [{ appId := some "a", title := some "T", icon := some "",
                score := none : SearchEntry }] else none) q n = some l →
      ∀ a ∈ l, a.appId.isSome) ∧
    ((get_similar_apps "p" (some "d") none
        (fun q n => if q = "d" ∧ n = 5 then
          some [{ appId := some "a", title := some "T", icon := some "",
                  score := none : SearchEntry }] else none) 8).length ≤ 8 ∧
     (∀ e ∈ get_similar_apps "p" (some "d") none
        (fun q n => if q = "d" ∧ n = 5 then
          some [{ appId := some "a", title := some "T", icon := some "",
                  score := none : SearchEntry }] else none) 8,
        e.package_name ≠ "p") ∧
     (∀ e ∈ get_similar_apps "p" (some "d") none
        (fun q n => if q = "d" ∧ n = 5 then
          some [{ appId := some "a", title := some "T", icon := some "",
                  score := none : SearchEntry }] else none) 8,
        e ∈ devPassApps "p" (some "d")
            (fun q n => if q = "d" ∧ n = 5 then
              some [{ appId := some "a", title := some "T", icon := some "",
                      score := none : SearchEntry }] else none) ∨
          e.package_name ∉
            (devPassApps "p" (some "d")
              (fun q n => if q = "d" ∧ n = 5 then
                some [{ appId := some "a", title := some "T", icon := some "",
                        score := none : SearchEntry }] else none)).map
              SimilarApp.package_name)) := by
  have hwf : ∀ q n l, (fun q n => if q = "d" ∧ n = 5 then
      some [{ appId := some "a", title := some "T", icon := some "",
              score := none : SearchEntry }] else none) q n = some l →
      ∀ a ∈ l, a.appId.isSome := by
    intro q n l h a ha
    by_cases hq : q = "d" ∧ n = 5
    · simp only [if_pos hq] at h
      cases h
      simp only [List.mem_singleton] at ha
      subst ha
      rfl
    · simp [if_neg hq] at h
  exact ⟨hwf, c10_similar_apps "p" (some "d") none _ 8 hwf⟩

/-! ## C3 — `extract_dominant_colors` shape and validity -/

theorem pyInt_eq_floor (q : ℚ) (h : 0 ≤ q) : pyInt q = ⌊q⌋ := by
  rw [pyInt, Rat.floor_def]
  exact Int.tdiv_eq_ediv (Rat.num_nonneg.2 h) (Int.ofNat_nonneg _)

theorem pyInt_byte_bounds (x : ℚ) (h0 : 0 ≤ x) (h1 : x ≤ 1) :
    (pyInt (x * 255)).toNat < 256 := by
  rw [pyInt_eq_floor _ (by positivity)]
  have h255 : x * 255 ≤ (255 : ℚ) := by nlinarith
  have hf := Int.floor_le_floor h255
  have h2 : (⌊(255 : ℚ)⌋ : ℤ) = 255 := by norm_num
  omega

theorem hsv_to_rgb_bounds (h s v : ℚ) (hh : 0 ≤ h) (hs0 : 0 ≤ s) (hs1 : s ≤ 1)
    (hv0 : 0 ≤ v) (hv1 : v ≤ 1) :
    (0 ≤ (hsv_to_rgb h s v).1 ∧ (hsv_to_rgb h s v).1 ≤ 1) ∧
    (0 ≤ (hsv_to_rgb h s v).2.1 ∧ (hsv_to_rgb h s v).2.1 ≤ 1) ∧
    (0 ≤ (hsv_to_rgb h s v).2.2 ∧ (hsv_to_rgb h s v).2.2 ≤ 1) := by
  have h6 : (0 : ℚ) ≤ h * 6 := by positivity
  have hfl := Int.floor_le (h * 6)
  have hfl1 := Int.lt_floor_add_one (h * 6)
  simp only [hsv_to_rgb]
  rw [pyInt_eq_floor _ h6]
  split
  · exact ⟨⟨hv0, hv1⟩, ⟨hv0, hv1⟩, hv0, hv1⟩
  · have hf0 : (0 : ℚ) ≤ h * 6 - (⌊h * 6⌋ : ℚ) := by linarith
    have hf1 : h * 6 - (⌊h * 6⌋ : ℚ) ≤ 1 := by linarith
    have hp0 : (0 : ℚ) ≤ v * (1 - s) := by nlinarith
    have hp1 : v * (1 - s) ≤ 1 := by nlinarith
    have hsf0 : (0 : ℚ) ≤ s * (h * 6 - (⌊h * 6⌋ : ℚ)) := by nlinarith
    have hsf1 : s * (h * 6 - (⌊h * 6⌋ : ℚ)) ≤ 1 := by nlinarith
    have hq0 : (0 : ℚ) ≤ v * (1 - s * (h * 6 - (⌊h * 6⌋ : ℚ))) := by nlinarith
    have hq1 : v * (1 - s * (h * 6 - (⌊h * 6⌋ : ℚ))) ≤ 1 := by nlinarith
    have hsg0 : (0 : ℚ) ≤ s * (1 - (h * 6 - (⌊h * 6⌋ : ℚ))) := by nlinarith
    have hsg1 : s * (1 - (h * 6 - (⌊h * 6⌋ : ℚ))) ≤ 1 := by nlinarith
    have ht0 : (0 : ℚ) ≤ v * (1 - s * (1 - (h * 6 - (⌊h * 6⌋ : ℚ)))) := by nlinarith
    have ht1 : v * (1 - s * (1 - (h * 6 - (⌊h * 6⌋ : ℚ)))) ≤ 1 := by nlinarith
    split <;>
      exact ⟨⟨by assumption, by assumption⟩, ⟨by assumption, by assumption⟩,
        by assumption, by assumption⟩

set_option maxRecDepth 10000 in
theorem pyHex02_shape (m : Nat) (h : m < 256) :
    (pyHex02 m).toList.length = 2 ∧
    ((pyHex02 m).toList.all fun c => (hexDigitVal c).isSome) = true ∧
    ((pyHex02 m).toList.all fun c => c ≠ '#') = true ∧
    hexSliceVal (pyHex02 m).toList = some m := by
  have key : ∀ m : Fin 256,
      (pyHex02 m.val).toList.length = 2 ∧
      ((pyHex02 m.val).toList.all fun c => (hexDigitVal c).isSome) = true ∧
      ((pyHex02 m.val).toList.all fun c => c ≠ '#') = true ∧
      hexSliceVal (pyHex02 m.val).toList = some m.val := by decide
  exact key ⟨m, h⟩

theorem parseHexColor_format (a b c : Nat) (ha : a < 256) (hb : b < 256)
    (hc : c < 256) :
    parseHexColor ("#" ++ pyHex02 a ++ pyHex02 b ++ pyHex02 c) = some (a, b, c) := by
  obtain ⟨x1, y1, hxy1⟩ := List.length_eq_two.1 (pyHex02_shape a ha).1
  obtain ⟨x2, y2, hxy2⟩ := List.length_eq_two.1 (pyHex02_shape b hb).1
  obtain ⟨x3, y3, hxy3⟩ := List.length_eq_two.1 (pyHex02_shape c hc).1
  have hval1 := (pyHex02_shape a ha).2.2.2
  have hval2 := (pyHex02_shape b hb).2.2.2
  have hval3 := (pyHex02_shape c hc).2.2.2
  rw [hxy1] at hval1
  rw [hxy2] at hval2
  rw [hxy3] at hval3
  have hx1 : x1 ≠ '#' := by
    have := (pyHex02_shape a ha).2.2.1
    rw [hxy1] at this
    simp only [List.all_cons, List.all_nil, Bool.and_true, Bool.and_eq_true,
      decide_eq_true_eq] at this
    exact this.1
  have hlist : ("#" ++ pyHex02 a ++ pyHex02 b ++ pyHex02 c).toList =
      '#' :: x1 :: y1 :: x2 :: y2 :: x3 :: y3 :: [] := by
    show ("#" ++ pyHex02 a ++ pyHex02 b ++ pyHex02 c).data = _
    simp only [String.data_append, List.append_assoc]
    rw [show (pyHex02 a).data = [x1, y1] from hxy1,
      show (pyHex02 b).data = [x2, y2] from hxy2,
      show (pyHex02 c).data = [x3, y3] from hxy3]
    rfl
  rw [parseHexColor, hlist]
  simp only [List.dropWhile_cons, decide_eq_true_eq, decide_True, if_true]
  rw [if_neg hx1]
  simp only [List.take_succ_cons, List.take_zero, List.drop_succ_cons, List.drop_zero]
  rw [hval1, hval2, hval3]

theorem isHexColorB_format (a b c : Nat) (ha : a < 256) (hb : b < 256)
    (hc : c < 256) :
    isHexColorB ("#" ++ pyHex02 a ++ pyHex02 b ++ pyHex02 c) = true := by
  obtain ⟨x1, y1, hxy1⟩ := List.length_eq_two.1 (pyHex02_shape a ha).1
  obtain ⟨x2, y2, hxy2⟩ := List.length_eq_two.1 (pyHex02_shape b hb).1
  obtain ⟨x3, y3, hxy3⟩ := List.length_eq_two.1 (pyHex02_shape c hc).1
  have hhex1 := (pyHex02_shape a ha).2.1
  have hhex2 := (pyHex02_shape b hb).2.1
  have hhex3 := (pyHex02_shape c hc).2.1
  rw [hxy1] at hhex1
  rw [hxy2] at hhex2
  rw [hxy3] at hhex3
  simp only [List.all_cons, List.all_nil, Bool.and_true, Bool.and_eq_true] at hhex1 hhex2 hhex3
  have hlist : ("#" ++ pyHex02 a ++ pyHex02 b ++ pyHex02 c).toList =
      '#' :: x1 :: y1 :: x2 :: y2 :: x3 :: y3 :: [] := by
    show ("#" ++ pyHex02 a ++ pyHex02 b ++ pyHex02 c).data = _
    simp only [String.data_append, List.append_assoc]
    rw [show (pyHex02 a).data = [x1, y1] from hxy1,
      show (pyHex02 b).data = [x2, y2] from hxy2,
      show (pyHex02 c).data = [x3, y3] from hxy3]
    rfl
  rw [isHexColorB, hlist]
  simp [hhex1.1, hhex1.2, hhex2.1, hhex2.2, hhex3.1, hhex3.2]

theorem vary_color_isHex (hex : String) (variation dh ds dv : ℚ)
    (rgbv : Nat × Nat × Nat) (h : parseHexColor hex = some rgbv) :
    isHexColorB (vary_color hex variation dh ds dv) = true := by
  obtain ⟨r, g, b⟩ := rgbv
  rw [vary_color, h]
  have hh0 : 0 ≤ Int.fract ((rgb_to_hsv ((r : ℚ) / 255) ((g : ℚ) / 255) ((b : ℚ) / 255)).1
      + uniformQ (-variation) variation dh) := Int.fract_nonneg _
  have hs0 : (0 : ℚ) ≤ max 0 (min 1 ((rgb_to_hsv ((r : ℚ) / 255) ((g : ℚ) / 255) ((b : ℚ) / 255)).2.1
      + uniformQ (-(variation / 2)) (variation / 2) ds)) := le_max_left _ _
  have hs1 : max 0 (min 1 ((rgb_to_hsv ((r : ℚ) / 255) ((g : ℚ) / 255) ((b : ℚ) / 255)).2.1
      + uniformQ (-(variation / 2)) (variation / 2) ds)) ≤ 1 :=
    max_le (by norm_num) (min_le_left _ _)
  have hv0 : (0 : ℚ) ≤ max (3/10) (min 1 ((rgb_to_hsv ((r : ℚ) / 255) ((g : ℚ) / 255) ((b : ℚ) / 255)).2.2
      + uniformQ (-(variation / 2)) (variation / 2) dv)) :=
    le_trans (by norm_num) (le_max_left _ _)
  have hv1 : max (3/10) (min 1 ((rgb_to_hsv ((r : ℚ) / 255) ((g : ℚ) / 255) ((b : ℚ) / 255)).2.2
      + uniformQ (-(variation / 2)) (variation / 2) dv)) ≤ 1 :=
    max_le (by norm_num) (min_le_left _ _)
  have hb := hsv_to_rgb_bounds _ _ _ hh0 hs0 hs1 hv0 hv1
  exact isHexColorB_format _ _ _
    (pyInt_byte_bounds _ hb.1.1 hb.1.2)
    (pyInt_byte_bounds _ hb.2.1.1 hb.2.1.2)
    (pyInt_byte_bounds _ hb.2.2.1 hb.2.2.2)

theorem varyPalette_length (g : RStream) :
    ∀ (k : Nat) (l : List Rgb), (varyPalette g k l).length = l.length := by
  intro k l
  induction l generalizing k with
  | nil => rfl
  | cons rgb rest ih => simp [varyPalette, ih]

theorem varyPalette_all_hex (g : RStream) :
    ∀ (k : Nat) (l : List Rgb), ∀ s ∈ varyPalette g k l, isHexColorB s = true := by
  intro k l
  induction l generalizing k with
  | nil => intro s hs; simp [varyPalette] at hs
  | cons rgb rest ih =>
    intro s hs
    rcases List.mem_cons.1 hs with h | h
    · subst h
      exact vary_color_isHex _ _ _ _ _ _
        (parseHexColor_format _ _ _ rgb.1.isLt rgb.2.1.isLt rgb.2.2.isLt)
    · exact ih (k + 3) s h

theorem parseHexColor_choice (n : Nat) :
    ∃ v, parseHexColor (pyChoice default_colors n) = some v := by
  have h3 : n % 3 = 0 ∨ n % 3 = 1 ∨ n % 3 = 2 := by omega
  rcases h3 with h | h | h <;>
    simp only [pyChoice, default_colors, List.length_cons, List.length_nil, h] <;>
    exact ⟨_, rfl⟩

theorem padColors_length (g : RStream) :
    ∀ (k n : Nat), (padColors g k n).length = n := by
  intro k n
  induction n generalizing k with
  | zero => rfl
  | succ m ih => simp [padColors, ih]

theorem padColors_all_hex (g : RStream) :
    ∀ (k n : Nat), ∀ s ∈ padColors g k n, isHexColorB s = true := by
  intro k n
  induction n generalizing k with
  | zero => intro s hs; simp [padColors] at hs
  | succ m ih =>
    intro s hs
    rcases List.mem_cons.1 hs with h | h
    · subst h
      obtain ⟨v, hv⟩ := parseHexColor_choice (g.nat k)
      exact vary_color_isHex _ _ _ _ _ _ hv
    · exact ih (k + 4) s h

theorem varyDefaults_length (g : RStream) :
    ∀ (k : Nat) (l : List String), (varyDefaults g k l).length = l.length := by
  intro k l
  induction l generalizing k with
  | nil => rfl
  | cons c rest ih => simp [varyDefaults, ih]

theorem varyDefaults_all_hex (g : RStream) :
    ∀ (k : Nat) (l : List String), (∀ s ∈ l, (parseHexColor s).isSome = true) →
      ∀ s ∈ varyDefaults g k l, isHexColorB s = true := by
  intro k l
  induction l generalizing k with
  | nil => intro _ s hs; simp [varyDefaults] at hs
  | cons c rest ih =>
    intro hl s hs
    rcases List.mem_cons.1 hs with h | h
    · subst h
      obtain ⟨v, hv⟩ := Option.isSome_iff_exists.1 (hl c (List.mem_cons_self c rest))
      exact vary_color_isHex _ _ _ _ _ _ hv
    · exact ih (k + 3) (fun s' hs' => hl s' (List.mem_cons_of_mem _ hs')) s h

/-- C3: for every palette-extraction outcome and random-stream state,
`extract_dominant_colors` (with `num_colors = 3`) returns exactly three
strings of the form `#rrggbb` and never raises; on success the first
`min(3, len(palette))` palette entries are varied (variation `0.1`) and
the list is padded to three with varied random default colors; on failure
it is the three default colors each passed through `vary_color`. -/
theorem c3_extract_dominant_colors (pal : Option (List Rgb)) (g : RStream) :
    (extract_dominant_colors pal g).length = 3 ∧
    (∀ s ∈ extract_dominant_colors pal g, isHexColorB s = true) ∧
    (∀ palette, pal = some palette →
        extract_dominant_colors pal g =
          varyPalette g 0 (palette.take 3) ++
            padColors g (3 * (varyPalette g 0 (palette.take 3)).length)
              (3 - (varyPalette g 0 (palette.take 3)).length)) ∧
    (pal = none → extract_dominant_colors pal g = varyDefaults g 0 default_colors) := by
  cases pal with
  | none =>
    refine ⟨?_, ?_, fun palette h => Option.noConfusion h, fun _ => rfl⟩
    · rw [extract_dominant_colors, varyDefaults_length]
      rfl
    · intro s hs
      exact varyDefaults_all_hex g 0 default_colors (by decide) s hs
  | some palette =>
    have hlen : (varyPalette g 0 (palette.take 3)).length ≤ 3 := by
      rw [varyPalette_length]
      exact le_trans (List.length_take_le _ _) (le_refl 3)
    refine ⟨?_, ?_, fun palette' h => by injection h with h; subst h; rfl,
      fun h => Option.noConfusion h⟩
    · rw [extract_dominant_colors]
      rw [List.length_append, padColors_length]
      omega
    · intro s hs
      rw [extract_dominant_colors] at hs
      rcases List.mem_append.1 hs with h | h
      · exact varyPalette_all_hex g 0 _ s h
      · exact padColors_all_hex g _ _ s h

/-- Witness for C3 at both a failing and a succeeding palette oracle. -/
theorem c3_extract_dominant_colors_witness :
    ((extract_dominant_colors none zeroStream).length = 3 ∧
      isHexColorB (vary_color "#4285f4" (15/100) (zeroStream.q 0) (zeroStream.q 1)
        (zeroStream.q 2)) = true ∧
      extract_dominant_colors none zeroStream = varyDefaults zeroStream 0 default_colors) ∧
    extract_dominant_colors (some [((1 : Fin 256), (2 : Fin 256), (3 : Fin 256))])
        zeroStream =
      varyPalette zeroStream 0 ([((1 : Fin 256), (2 : Fin 256), (3 : Fin 256))].take 3) ++
        padColors zeroStream
          (3 * (varyPalette zeroStream 0
            ([((1 : Fin 256), (2 : Fin 256), (3 : Fin 256))].take 3)).length)
          (3 - (varyPalette zeroStream 0
            ([((1 : Fin 256), (2 : Fin 256), (3 : Fin 256))].take 3)).length) :=
  ⟨⟨(c3_extract_dominant_colors none zeroStream).1,
    (c3_extract_dominant_colors none zeroStream).2.1 _ (List.mem_cons_self _ _),
    (c3_extract_dominant_colors none zeroStream).2.2.2 rfl⟩,
   (c3_extract_dominant_colors
      (some [((1 : Fin 256), (2 : Fin 256), (3 : Fin 256))]) zeroStream).2.2.1 _ rfl⟩

/-! ## C1 — every image path in the HTML names a successfully saved file -/

theorem download_preserves (http : String → Option (List Nat)) (fs : FS)
    (url p p' : String) (h : (fs.files p').isSome = true) :
    ((download_image http fs url p).fs.files p').isSome = true := by
  by_cases hc : (fs.files p).isSome
  · simp [download_image, hc, h]
  · cases hu : http url with
    | none => simp [download_image, hc, hu, h]
    | some content =>
      simp only [download_image, hc, hu, Bool.false_eq_true, if_false]
      by_cases hp : p' = p
      · simp [hp]
      · simp [hp, h]

theorem download_ok_saved (http : String → Option (List Nat)) (fs : FS)
    (url p : String) (h : (download_image http fs url p).ok = true) :
    ((download_image http fs url p).fs.files p).isSome = true := by
  by_cases hc : (fs.files p).isSome
  · simp [download_image, hc]
  · cases hu : http url with
    | none => simp [download_image, hc, hu] at h
    | some content => simp [download_image, hc, hu]

theorem iconStep_preserves (pn : String) (r : Record) (fs : FS) (o : Oracles)
    (p' : String) (h : (fs.files p').isSome = true) :
    ((iconStep pn r fs o).2.2.files p').isSome = true := by
  rw [iconStep]
  split
  · dsimp only
    split
    · exact download_preserves _ _ _ _ _ h
    · exact download_preserves _ _ _ _ _ h
  · exact h

theorem coverStep_preserves (pn : String) (r : Record) (fs : FS) (o : Oracles)
    (p' : String) (h : (fs.files p').isSome = true) :
    ((coverStep pn r fs o).2.files p').isSome = true := by
  rw [coverStep]
  split
  · dsimp only
    exact download_preserves _ _ _ _ _ h
  · exact h

theorem screenshotsLoop_preserves (http : String → Option (List Nat)) (dir : String) :
    ∀ (urls : List String) (fs : FS) (i : Nat) (p' : String),
      (fs.files p').isSome = true →
      ((screenshotsLoop http dir fs i urls).2.files p').isSome = true := by
  intro urls
  induction urls with
  | nil => intro fs i p' h; exact h
  | cons url rest ih =>
    intro fs i p' h
    exact ih _ (i + 1) p' (download_preserves _ _ _ _ _ h)

theorem screenshotsLoop_saved (http : String → Option (List Nat)) (dir : String) :
    ∀ (urls : List String) (fs : FS) (i : Nat),
      ∀ f ∈ (screenshotsLoop http dir fs i urls).1,
        ((screenshotsLoop http dir fs i urls).2.files (dir ++ "/" ++ f)).isSome = true := by
  intro urls
  induction urls with
  | nil => intro fs i f hf; simp [screenshotsLoop] at hf
  | cons url rest ih =>
    intro fs i f hf
    simp only [screenshotsLoop] at hf ⊢
    by_cases hok : (download_image http fs url
        (dir ++ "/" ++ ("screenshot_" ++ toString i ++ ".jpg"))).ok = true
    · rw [if_pos hok] at hf
      rcases List.mem_cons.1 hf with h | h
      · subst h
        exact screenshotsLoop_preserves http dir rest _ (i + 1) _
          (download_ok_saved _ _ _ _ hok)
      · exact ih _ (i + 1) f h
    · rw [if_neg hok] at hf
      exact ih _ (i + 1) f hf

theorem similarIconsLoop_preserves (http : String → Option (List Nat)) (dir : String) :
    ∀ (l : List SimilarApp) (fs : FS) (i : Nat) (p' : String),
      (fs.files p').isSome = true →
      ((similarIconsLoop http dir fs i l).2.files p').isSome = true := by
  intro l
  induction l with
  | nil => intro fs i p' h; exact h
  | cons a rest ih =>
    intro fs i p' h
    simp only [similarIconsLoop]
    split
    · exact ih _ (i + 1) p' (download_preserves _ _ _ _ _ h)
    · exact ih _ (i + 1) p' h

theorem similarIconsLoop_saved (http : String → Option (List Nat)) (dir : String) :
    ∀ (l : List SimilarApp) (fs : FS) (i : Nat),
      (∀ a ∈ l, a.icon_local = none) →
      ∀ a' ∈ (similarIconsLoop http dir fs i l).1, ∀ f, a'.icon_local = some f →
        ((similarIconsLoop http dir fs i l).2.files (dir ++ "/" ++ f)).isSome = true := by
  intro l
  induction l with
  | nil => intro fs i _ a' ha'; simp [similarIconsLoop] at ha'
  | cons a rest ih =>
    intro fs i hnone a' ha' f hf
    simp only [similarIconsLoop] at ha' ⊢
    by_cases hicon : a.icon ≠ ""
    · rw [if_pos hicon] at ha' ⊢
      rcases List.mem_cons.1 ha' with h | h
      · subst h
        by_cases hok : (download_image http fs a.icon
            (dir ++ "/" ++ ("similar_" ++ toString i ++ ".png"))).ok = true
        · rw [if_pos hok] at hf
          simp only at hf
          injection hf with hf
          subst hf
          exact similarIconsLoop_preserves http dir rest _ (i + 1) _
            (download_ok_saved _ _ _ _ hok)
        · rw [if_neg hok] at hf
          rw [hnone a (List.mem_cons_self a rest)] at hf
          cases hf
      · exact ih _ (i + 1) (fun x hx => hnone x (List.mem_cons_of_mem _ hx)) a' h f hf
    · rw [if_neg hicon] at ha' ⊢
      rcases List.mem_cons.1 ha' with h | h
      · subst h
        rw [hnone a' (List.mem_cons_self a' rest)] at hf
        cases hf
      · exact ih _ (i + 1) (fun x hx => hnone x (List.mem_cons_of_mem _ hx)) a' h f hf

theorem mem_foldr_append {α β : Type} (f : β → List α) (l : List β) (x : α)
    (h : x ∈ l.foldr (fun b acc => f b ++ acc) []) : ∃ b ∈ l, x ∈ f b := by
  induction l with
  | nil => simp at h
  | cons b rest ih =>
    simp only [List.foldr_cons] at h
    rcases List.mem_append.1 h with h1 | h1
    · exact ⟨b, List.mem_cons_self b rest, h1⟩
    · obtain ⟨b', hb', hx⟩ := ih h1
      exact ⟨b', List.mem_cons_of_mem _ hb', hx⟩

theorem catLoop_forall (pkg : String) (m : Nat) (P : SimilarApp → Prop)
    (hmk : ∀ a, P (mkSimilar a)) :
    ∀ (l : List SearchEntry) (s : List SimilarApp), (∀ e ∈ s, P e) →
      ∀ e ∈ catLoop pkg m s l, P e := by
  intro l
  induction l with
  | nil => intro s hs e he; exact hs e he
  | cons a rest ih =>
    intro s hs e he
    have hs' : ∀ e' ∈ s ++ [mkSimilar a], P e' := by
      intro e' he'
      rcases List.mem_append.1 he' with h1 | h1
      · exact hs e' h1
      · rw [List.mem_singleton.1 h1]; exact hmk a
    simp only [catLoop] at he
    split at he
    · split at he
      · exact hs' e he
      · exact ih _ hs' e he
    · exact ih s hs e he

theorem get_similar_apps_icon_local_none (package_name : String)
    (developer category : Option String)
    (search : String → Nat → Option (List SearchEntry)) (max_apps : Nat) :
    ∀ e ∈ get_similar_apps package_name developer category search max_apps,
      e.icon_local = none := by
  have hdev : ∀ e ∈ devPassApps package_name developer search, e.icon_local = none := by
    intro e he
    simp only [devPassApps] at he
    split at he
    · split at he
      · simp at he
      · obtain ⟨a, _, rfl⟩ := List.mem_map.1 he
        rfl
    · simp at he
  intro e he
  simp only [get_similar_apps] at he
  have he' := List.take_subset _ _ he
  split at he'
  · split at he'
    · exact hdev e he'
    · exact catLoop_forall package_name max_apps (fun e => e.icon_local = none)
        (fun a => rfl) _ _ hdev e he'
  · exact hdev e he'

theorem iconStep_cases (pn : String) (r : Record) (fs : FS) (o : Oracles) :
    (iconStep pn r fs o).1 = none ∨
      ((iconStep pn r fs o).1 = some "icon.png" ∧
        ((iconStep pn r fs o).2.2.files
          (app_images_dir pn ++ "/" ++ "icon.png")).isSome = true) := by
  rw [iconStep]
  split
  · dsimp only
    split
    · next hok => exact Or.inr ⟨rfl, download_ok_saved _ _ _ _ hok⟩
    · exact Or.inl rfl
  · exact Or.inl rfl

theorem landing_path_ne_empty (lid s : String) :
    ("/landing/" ++ lid ++ "/" ++ s) ≠ "" := by
  intro h
  have hlen := congrArg String.length h
  simp only [String.length_append] at hlen
  have h9 : ("/landing/" : String).length = 9 := by decide
  have h1 : ("/" : String).length = 1 := by decide
  have h0 : ("" : String).length = 0 := by decide
  omega

/-- C1: every image `src` the rendered page carries has the form
`/landing/<landing_id>/<filename>`, and the named file was successfully
saved by `download_image` during processing (it is present in the final
filesystem under the app's image directory); entries whose download
failed never reach `processed_data`, hence never reach the HTML. -/
theorem c1_image_paths_saved (package_name language landing_id : String) (r : Record)
    (fs : FS) (o : Oracles) (rp : Params) (src : String)
    (hsrc : src ∈ imageSrcs (templateDataOf
        (processAppData package_name language r fs o).1 rp landing_id)) :
    ∃ f, src = "/landing/" ++ landing_id ++ "/" ++ f ∧
      ((processAppData package_name language r fs o).2.files
        (app_images_dir package_name ++ "/" ++ f)).isSome = true := by
  have hicon : (processAppData package_name language r fs o).1.icon =
      (iconStep package_name r fs o).1 := rfl
  have hshots : (processAppData package_name language r fs o).1.screenshots =
      (screenshotsLoop o.http (app_images_dir package_name)
        ((coverStep package_name r (iconStep package_name r fs o).2.2 o).2) 0
        (r.screenshots.getD [])).1 := rfl
  have hsim : (processAppData package_name language r fs o).1.similar_apps =
      (similarIconsLoop o.http (app_images_dir package_name)
        (screenshotsLoop o.http (app_images_dir package_name)
          ((coverStep package_name r (iconStep package_name r fs o).2.2 o).2) 0
          (r.screenshots.getD [])).2 0
        (get_similar_apps package_name r.developer r.genreId o.search 8)).1 := rfl
  have hpd2 : (processAppData package_name language r fs o).2 =
      (similarIconsLoop o.http (app_images_dir package_name)
        (screenshotsLoop o.http (app_images_dir package_name)
          ((coverStep package_name r (iconStep package_name r fs o).2.2 o).2) 0
          (r.screenshots.getD [])).2 0
        (get_similar_apps package_name r.developer r.genreId o.search 8)).2 := rfl
  simp only [imageSrcs, templateDataOf, List.mem_append] at hsrc
  rw [hicon, hshots, hsim] at hsrc
  rw [hpd2]
  rcases hsrc with (h1 | h1) | h1
  · -- the hero icon
    rcases iconStep_cases package_name r fs o with hnone | ⟨hsome, hsaved⟩
    · rw [hnone] at h1
      simp at h1
    · rw [hsome] at h1
      dsimp only at h1
      rw [if_pos (by decide : ("icon.png" : String) ≠ "")] at h1
      dsimp only at h1
      rw [if_pos (landing_path_ne_empty landing_id "icon.png")] at h1
      rcases List.mem_singleton.1 h1 with rfl
      exact ⟨"icon.png", rfl,
        similarIconsLoop_preserves _ _ _ _ _ _
          (screenshotsLoop_preserves _ _ _ _ _ _
            (coverStep_preserves _ _ _ _ _ hsaved))⟩
  · -- screenshots emitted by the sections loop
    obtain ⟨sec, _, hmem⟩ := mem_foldr_append _ _ _ h1
    split at hmem
    · -- the inner conditional chose the rewritten screenshot list
      split at hmem
      · obtain ⟨s, hs, rfl⟩ := List.mem_map.1 hmem
        exact ⟨s, rfl,
          similarIconsLoop_preserves _ _ _ _ _ _
            (screenshotsLoop_saved o.http (app_images_dir package_name)
              (r.screenshots.getD []) _ 0 s hs)⟩
      · simp at hmem
    · -- the screenshot list is empty, so nothing is emitted
      next hne' =>
      have hsh := not_ne_iff.1 hne'
      split at hmem
      · rw [hsh] at hmem
        simp at hmem
      · simp at hmem
  · -- similar-app icons
    split at h1
    · obtain ⟨a, ha, hmem⟩ := mem_foldr_append _ _ _ h1
      obtain ⟨a0, ha0, rfl⟩ := List.mem_map.1 ha
      rcases hio : a0.icon_local with _ | s0
      · simp [hio] at hmem
      · rw [hio] at hmem
        dsimp only at hmem
        by_cases hs0 : s0 ≠ ""
        · rw [if_pos hs0] at hmem
          dsimp only at hmem
          rw [if_pos (landing_path_ne_empty landing_id s0)] at hmem
          rcases List.mem_singleton.1 hmem with rfl
          refine ⟨s0, rfl, ?_⟩
          exact similarIconsLoop_saved o.http (app_images_dir package_name)
            (get_similar_apps package_name r.developer r.genreId o.search 8) _ 0
            (get_similar_apps_icon_local_none package_name r.developer r.genreId
              o.search 8)
            a0 ha0 s0 hio
        · rw [if_neg hs0] at hmem
          rw [hio] at hmem
          dsimp only at hmem
          rw [if_neg hs0] at hmem
          simp at hmem
    · simp at h1

set_option maxRecDepth 10000 in
/-- Witness for C1: a concrete record with one screenshot whose download
succeeds; the emitted `src` has the `/landing/<id>/<file>` form and the
file is present in the final filesystem. -/
theorem c1_image_paths_saved_witness :
    (("/landing/" ++ "L" ++ "/" ++ "screenshot_0.jpg") ∈ imageSrcs (templateDataOf
        (processAppData "pkg" "en" demoRecord emptyFS demoOracles).1
        fallback_randomization_params "L")) ∧
    (∃ f, ("/landing/" ++ "L" ++ "/" ++ "screenshot_0.jpg" : String) =
        "/landing/" ++ "L" ++ "/" ++ f ∧
      ((processAppData "pkg" "en" demoRecord emptyFS demoOracles).2.files
        (app_images_dir "pkg" ++ "/" ++ f)).isSome = true) := by
  have hmem : ("/landing/" ++ "L" ++ "/" ++ "screenshot_0.jpg") ∈ imageSrcs (templateDataOf
      (processAppData "pkg" "en" demoRecord emptyFS demoOracles).1
      fallback_randomization_params "L") := by decide
  exact ⟨hmem, c1_image_paths_saved "pkg" "en" "L" demoRecord emptyFS demoOracles
    fallback_randomization_params _ hmem⟩
